import Mathlib

/-! printer-pdf: status classifier, status poller and print-job monitor.

A shallow embedding of `src/main.go` (the command-line tool) and of
`src/main2.go` (the HTTP service): `parseStatusCode`, `getPrinterStatus`,
`findGhostscript` and `buildGSArgs`, which the two files share verbatim,
`monitorPrintJob` and `main` of the tool, `handlePrint` and
`handlePrinterStatus` of the service.

Go strings are modelled as lists of runes (`List Char`).  Machine integers are
`Int`, with the 64-bit range made explicit where the source can leave it.
-/

namespace PrinterPdf

/-- Text: a Go string seen as its sequence of runes. -/
abbrev Str := List Char

/-! ## The pieces of Go's `strings` package that the source calls -/

/-- White space as `unicode.IsSpace` and the `fmt` scanner see it: the Latin-1
spaces and the code points with the White_Space property. -/
def isSpace (c : Char) : Bool :=
  let n := c.toNat
  (0x09 ≤ n && n ≤ 0x0d) || n == 0x20 || n == 0x85 || n == 0xa0 || n == 0x1680 ||
    (0x2000 ≤ n && n ≤ 0x200a) || n == 0x2028 || n == 0x2029 || n == 0x202f ||
    n == 0x205f || n == 0x3000

/-- Go `strings.TrimSpace`: drop leading and trailing white space. -/
def TrimSpace (s : Str) : Str :=
  ((s.dropWhile isSpace).reverse.dropWhile isSpace).reverse

/-- Go `strings.HasPrefix`. -/
def HasPrefix (s pre : Str) : Bool :=
  pre.isPrefixOf s

/-- Go `strings.TrimPrefix`: remove `pre` from the front when it is there. -/
def TrimPrefix (s pre : Str) : Str :=
  if HasPrefix s pre then s.drop pre.length else s

/-- Go `strings.Contains`: `sub` occurs somewhere in `s` as a contiguous block. -/
def Contains (s sub : Str) : Bool :=
  s.tails.any (fun t => sub.isPrefixOf t)

/-- Go `unicode.ToLower` as far as ASCII results go: `A`..`Z` are lowered, and
the only two runes outside ASCII that Go lowers into ASCII, U+0130 and U+212A,
become `i` and `k`.  Every other rune outside ASCII is lowered by Go to a rune
outside ASCII; the model leaves it in place, which no test against an ASCII
needle can tell apart. -/
def toLowerRune (c : Char) : Char :=
  if 65 ≤ c.toNat ∧ c.toNat ≤ 90 then Char.ofNat (c.toNat + 32)
  else if c.toNat = 0x130 then 'i'
  else if c.toNat = 0x212a then 'k'
  else c

/-- Go `strings.ToLower`. -/
def ToLower (s : Str) : Str :=
  s.map toLowerRune

/-- Go `strings.Split(s, "\n")`, the separator being one rune: the pieces
between the separators, always at least one piece. -/
def Split (s : Str) (sep : Char) : List Str :=
  match s with
  | [] => [[]]
  | c :: cs =>
    if c = sep then [] :: Split cs sep
    else
      match Split cs sep with
      | [] => [[c]]
      | piece :: pieces => (c :: piece) :: pieces

/-! ## Status classifier (`parseStatusCode`, main.go 170-200, main2.go 255-285) -/

/-- Source `parseStatusCode`: trim the code, try the exact matches, then the
two substring rules, else hand the trimmed code back. -/
def parseStatusCode (code0 : Str) : Str :=
  let code := TrimSpace code0
  if code = "0".toList ∨ code = "Normal".toList then "Ready".toList
  else if code = "1".toList then "Paused".toList
  else if code = "2".toList then "Error".toList
  else if code = "3".toList then "Pending Deletion".toList
  else if code = "4".toList then "Paper Jam".toList
  else if code = "5".toList then "Paper Out".toList
  else if code = "6".toList then "Manual Feed".toList
  else if code = "7".toList then "Paper Problem".toList
  else if code = "8".toList then "Offline".toList
  else if Contains (ToLower code) "paper".toList then "Paper Problem".toList
  else if Contains (ToLower code) "error".toList then "Error".toList
  else code

/-! ## Status poller (`getPrinterStatus`, main.go 123-168, main2.go 210-253) -/

/-- Source `PrinterStatus`. -/
structure PrinterStatus where
  Name : Str
  Status : Str
  JobsInQueue : Int
  IsReady : Bool
  HasPaper : Bool
  HasError : Bool
  ErrorMsg : Str
  deriving DecidableEq, Repr

/-- The scanner's `SkipSpace` for `Sscanf` (newline is not a space there): a
carriage return right before a newline is passed over, a newline is the error
"unexpected newline" (`none`), other spaces are dropped. -/
def skipSpace : Str → Option Str
  | [] => some []
  | c :: cs =>
    if c = '\r' ∧ cs.head? = some '\n' then skipSpace cs
    else if c = '\n' then none
    else if isSpace c then skipSpace cs
    else some (c :: cs)

/-- The digits the verb `%d` accepts (`decimalDigits`). -/
def isDecimalDigit (c : Char) : Bool :=
  48 ≤ c.toNat && c.toNat ≤ 57

/-- Value of a run of decimal digits, most significant first. -/
def digitsValue (ds : Str) : Nat :=
  ds.foldl (fun acc d => 10 * acc + (d.toNat - 48)) 0

/-- The scanner's `scanInt` for `%d` into an `int` (64 bits): skip spaces, fail
at end of input, take one optional sign, then at least one digit and all the
digits that follow; `strconv.ParseInt` fails when the value leaves the range of
a 64-bit integer.  What follows the digits is left unread. -/
def scanInt (input : Str) : Option Int :=
  match skipSpace input with
  | none => none
  | some [] => none
  | some (c :: cs) =>
    let negative := c = '-'
    let rest := if c = '+' ∨ c = '-' then cs else c :: cs
    let digits := rest.takeWhile isDecimalDigit
    if digits = [] then none
    else
      let v : Int := if negative then -(digitsValue digits : Int) else (digitsValue digits : Int)
      if -(2 ^ 63) ≤ v ∧ v < 2 ^ 63 then some v else none

/-- The prefix of the status line of the status source. -/
def statusPrefix : Str := "STATUS:".toList

/-- The prefix of the queue-depth line of the status source. -/
def jobsPrefix : Str := "JOBS:".toList

/-- Source `fmt.Sscanf(line, "JOBS:%d", &n)`: the literal runes of the format
must match the input one by one, then `%d` skips spaces and scans an integer.
`none` stands for every error, on which the target is left untouched. -/
def sscanfJobs (line : Str) : Option Int :=
  if HasPrefix line jobsPrefix then
    match skipSpace (line.drop jobsPrefix.length) with
    | none => none
    | some rest => scanInt rest
  else none

/-- Body of the `for _, line := range lines` loop of `getPrinterStatus`. -/
def parseLine (status : PrinterStatus) (line0 : Str) : PrinterStatus :=
  let line := TrimSpace line0
  let status :=
    if HasPrefix line statusPrefix then
      let statusCode := TrimPrefix line statusPrefix
      { status with
        Status := parseStatusCode statusCode
        IsReady := Contains statusCode "Normal".toList || statusCode == "0".toList
        HasPaper := !Contains (ToLower statusCode) "paper".toList
        HasError := Contains (ToLower statusCode) "error".toList }
    else status
  if HasPrefix line jobsPrefix then
    match sscanfJobs line with
    | some n => { status with JobsInQueue := n }
    | none => status
  else status

/-- The snapshot `getPrinterStatus` starts from: the name, every other field at
Go's zero value. -/
def emptyStatus (printerName : Str) : PrinterStatus :=
  { Name := printerName, Status := [], JobsInQueue := 0, IsReady := false,
    HasPaper := false, HasError := false, ErrorMsg := [] }

/-- Source `getPrinterStatus`.  `cmd` is what running the PowerShell script
gave: `none` when `CombinedOutput` returned an error, else the output text. -/
def getPrinterStatus (printerName : Str) (cmd : Option Str) : Except Str PrinterStatus :=
  match cmd with
  | none => .error "printer tidak ditemukan".toList
  | some output => .ok ((Split output '\n').foldl parseLine (emptyStatus printerName))

/-! ## Job monitor (`monitorPrintJob`, main.go 202-258) -/

/-- What the monitor prints, one constructor per report. -/
inductive Event where
  | pollError (err : Str)
  | completed
  | paperOut
  | paperRestored
  | printerError (msg : Str)
  | progress (jobs : Int) (status : Str) (elapsed : Int)
  | timeout (timeoutSec : Int)
  deriving DecidableEq, Repr

/-- How a run of the monitor ends, one value per family of `return`. -/
inductive Outcome where
  | Completed
  | Failed
  | TimedOut
  deriving DecidableEq, Repr

/-- The two locals the loop carries from tick to tick. -/
structure MonitorState where
  previousJobs : Int
  paperWarningShown : Bool
  deriving DecidableEq, Repr

/-- What the world hands the monitor at one tick: what running the status
script gives `getPrinterStatus` (`none`: the command failed), and
`time.Since(startTime)` in nanoseconds as read for the progress line and as
read by the timeout test. -/
structure Tick where
  cmd : Option Str
  sinceProgress : Int
  sinceTimeout : Int

/-- After a tick: go round the loop again with the new locals, or return. -/
inductive Next where
  | loop (st : MonitorState)
  | ret (o : Outcome)
  deriving DecidableEq, Repr

/-- Two's-complement wrap of an integer into 64 bits. -/
def wrapInt64 (x : Int) : Int :=
  (x + 2 ^ 63) % 2 ^ 64 - 2 ^ 63

/-- Source `time.Duration(timeoutSec)*time.Second`: a 64-bit product, in
nanoseconds. -/
def timeoutDuration (timeoutSec : Int) : Int :=
  wrapInt64 (timeoutSec * 1000000000)

/-- The test of main.go line 251. -/
def timedOut (timeoutSec since : Int) : Bool :=
  decide (timeoutSec > 0) && decide (since > timeoutDuration timeoutSec)

/-- One pass through the `case <-ticker.C:` body: the reports printed, in
order, and what the loop does next. -/
def monitorTick (printerName : Str) (timeoutSec : Int) (st : MonitorState) (t : Tick) :
    List Event × Next :=
  match getPrinterStatus printerName t.cmd with
  | .error err => ([Event.pollError err], Next.ret Outcome.Failed)
  | .ok status =>
    if status.JobsInQueue = 0 then ([Event.completed], Next.ret Outcome.Completed)
    else
      let paper : List Event × Bool :=
        if !status.HasPaper then
          if !st.paperWarningShown then ([Event.paperOut], true)
          else ([], st.paperWarningShown)
        else
          if st.paperWarningShown then ([Event.paperRestored], false)
          else ([], st.paperWarningShown)
      if status.HasError then
        (paper.1 ++ [Event.printerError status.ErrorMsg], Next.ret Outcome.Failed)
      else
        let prog : List Event × Int :=
          if status.JobsInQueue ≠ st.previousJobs then
            ([Event.progress status.JobsInQueue status.Status t.sinceProgress],
              status.JobsInQueue)
          else ([], st.previousJobs)
        if timedOut timeoutSec t.sinceTimeout then
          (paper.1 ++ prog.1 ++ [Event.timeout timeoutSec], Next.ret Outcome.TimedOut)
        else
          (paper.1 ++ prog.1, Next.loop { previousJobs := prog.2, paperWarningShown := paper.2 })

/-- The `for` loop from given locals over the ticks the world supplies: the
reports of each tick that ran, tick by tick, and how the run stands at the end
(`Next.ret o`: the loop returned; `Next.loop st`: the ticks given ran out with
the loop still going, its locals being `st`). -/
def monitorLoop (printerName : Str) (timeoutSec : Int) (st : MonitorState) :
    List Tick → List (List Event) × Next
  | [] => ([], Next.loop st)
  | t :: ts =>
    match monitorTick printerName timeoutSec st t with
    | (evs, Next.ret o) => ([evs], Next.ret o)
    | (evs, Next.loop st') =>
      let r := monitorLoop printerName timeoutSec st' ts
      (evs :: r.1, r.2)

/-- Locals at loop entry: `previousJobs := -1`, `paperWarningShown := false`. -/
def initialState : MonitorState :=
  { previousJobs := -1, paperWarningShown := false }

/-- Source `monitorPrintJob`, run over the ticks the world supplies. -/
def monitorPrintJob (printerName : Str) (timeoutSec : Int) (ticks : List Tick) :
    List (List Event) × Next :=
  monitorLoop printerName timeoutSec initialState ticks

/-! ## Vocabulary of the specification -/

/-- Rune `c` is the lower-case ASCII letter `w` or its capital. -/
def sameLetter (c w : Char) : Prop :=
  c = w ∨ c.toNat + 32 = w.toNat

/-- Text `s` contains the lower-case word `w` case-insensitively: some block of
`s` spells `w` letter by letter, each letter in either case. -/
def ContainsIgnoringCase (s w : Str) : Prop :=
  ∃ pre mid post, s = pre ++ mid ++ post ∧ List.Forall₂ sameLetter mid w

/-- The raw codes with an exact match in the classifier. -/
def exactCodes : List Str :=
  ["0".toList, "Normal".toList, "1".toList, "2".toList, "3".toList, "4".toList,
    "5".toList, "6".toList, "7".toList, "8".toList]

/-- The payload starts with an integer as `%d` reads one: blanks, at most one
sign, then a decimal digit. -/
def LeadingInteger (payload : Str) : Prop :=
  ∃ blanks sign d rest, payload = blanks ++ sign ++ d :: rest ∧
    (∀ c ∈ blanks, isSpace c = true) ∧ (sign = [] ∨ sign = ['+'] ∨ sign = ['-']) ∧
    isDecimalDigit d = true

/-- The line is a `STATUS:` line for the poller: it has the prefix once
trimmed. -/
def isStatusLine (line : Str) : Bool :=
  HasPrefix (TrimSpace line) statusPrefix

/-- The line is a `JOBS:` line for the poller. -/
def isJobsLine (line : Str) : Bool :=
  HasPrefix (TrimSpace line) jobsPrefix

/-- Payload of a `STATUS:` line, as the poller cuts it out. -/
def statusPayload (line : Str) : Str :=
  TrimPrefix (TrimSpace line) statusPrefix

/-- Payload of a `JOBS:` line: what follows the prefix in the trimmed line. -/
def jobsPayload (line : Str) : Str :=
  (TrimSpace line).drop jobsPrefix.length

/-- Queue depth of the snapshot a tick polls, when the poll succeeds. -/
def Tick.depth? (printerName : Str) (t : Tick) : Option Int :=
  match getPrinterStatus printerName t.cmd with
  | .ok s => some s.JobsInQueue
  | .error _ => none

/-- Has-paper flag of the snapshot a tick polls, when the poll succeeds. -/
def Tick.hasPaper? (printerName : Str) (t : Tick) : Option Bool :=
  match getPrinterStatus printerName t.cmd with
  | .ok s => some s.HasPaper
  | .error _ => none

/-- A tick the loop survives: the poll succeeds, the queue is not empty, the
printer reports no error and the timeout test is false. -/
def Tick.continuing (printerName : Str) (timeoutSec : Int) (t : Tick) : Prop :=
  ∃ s, getPrinterStatus printerName t.cmd = .ok s ∧ s.JobsInQueue ≠ 0 ∧ s.HasError = false ∧
    timedOut timeoutSec t.sinceTimeout = false

/-- The report is a progress update. -/
def Event.isProgress : Event → Bool
  | Event.progress _ _ _ => true
  | _ => false

/-- Number of maximal runs of consecutive `false` in a list of has-paper
flags, counted at the place each run ends: a `false` followed by a `true`, or a
`false` that closes the list. -/
def falseRuns : List Bool → Nat
  | [] => 0
  | [b] => if b then 0 else 1
  | b :: c :: rest => (if !b && c then 1 else 0) + falseRuns (c :: rest)

/-- The tick at which the status script printed `output`, both clock readings
being `since` nanoseconds. -/
def tickAt (output : String) (since : Int) : Tick :=
  { cmd := some output.toList, sinceProgress := since, sinceTimeout := since }

/-- A lower-case letter that `toLowerRune` reaches only from itself and from
its capital. -/
def PlainLetter (x : Char) : Prop :=
  97 ≤ x.toNat ∧ x.toNat ≤ 122 ∧ x ≠ 'i' ∧ x ≠ 'k'

/-- The four status fields as one value. -/
def statusFields (s : PrinterStatus) : Str × Bool × Bool × Bool :=
  (s.Status, s.IsReady, s.HasPaper, s.HasError)

/-- The paper reports of one surviving tick, from the flag before it and the
snapshot's has-paper value. -/
def paperReport (shown hasPaper : Bool) : List Event :=
  if hasPaper then (if shown then [Event.paperRestored] else [])
  else (if shown then [] else [Event.paperOut])

/-- The progress report of one surviving tick. -/
def progressReport (previousJobs : Int) (s : PrinterStatus) (since : Int) : List Event :=
  if s.JobsInQueue ≠ previousJobs then [Event.progress s.JobsInQueue s.Status since] else []

/-! ## Command builder (`buildGSArgs`, main.go 298-344, main2.go 305-351) -/

/-- Source `PrintSettings`. -/
structure PrintSettings where
  PaperSize : Str
  Color : Str
  DoubleSided : Bool
  DuplexMode : Str
  Copies : Int
  deriving DecidableEq, Repr

/-- The verb `%d` of `fmt.Sprintf` on an integer: its decimal digits, with a
minus sign in front when it is negative. -/
def formatInt (n : Int) : Str :=
  match n with
  | Int.ofNat m => Nat.toDigits 10 m
  | Int.negSucc m => '-' :: Nat.toDigits 10 (m + 1)

/-- Source `buildGSArgs`: the argument list grows by one `append` after the
other, as in the source. -/
def buildGSArgs (printerName pdfPath : Str) (settings : PrintSettings) : List Str :=
  let args : List Str :=
    ["-dPrinted".toList, "-dBATCH".toList, "-dNOPAUSE".toList, "-dNOSAFER".toList, "-q".toList]
  let args := args ++ ["-dNumCopies=".toList ++ formatInt settings.Copies]
  let args :=
    if settings.PaperSize = "a4".toList then args ++ ["-sPAPERSIZE=a4".toList]
    else if settings.PaperSize = "letter".toList then args ++ ["-sPAPERSIZE=letter".toList]
    else if settings.PaperSize = "legal".toList then args ++ ["-sPAPERSIZE=legal".toList]
    else if settings.PaperSize = "a5".toList then args ++ ["-sPAPERSIZE=a5".toList]
    else args ++ ["-sPAPERSIZE=a4".toList]
  let args :=
    if settings.Color = "monochrome".toList then
      ((args ++ ["-sProcessColorModel=DeviceGray".toList]) ++
        ["-sColorConversionStrategy=Gray".toList]) ++ ["-dOverrideICC".toList]
    else args
  let args :=
    if settings.DoubleSided then
      let args := args ++ ["-dDuplex=true".toList]
      if settings.DuplexMode = "horizontal".toList then args ++ ["-dTumble=true".toList]
      else args ++ ["-dTumble=false".toList]
    else args ++ ["-dDuplex=false".toList]
  let args := args ++ ["-sDEVICE=mswinpr2".toList]
  let args := args ++ ["-sOutputFile=%printer%".toList ++ printerName]
  args ++ [pdfPath]

/-! ## Print orchestrator (`main`, main.go 30-121; `handlePrint`, main2.go 84-164) -/

/-- What `os.Stat` answers for a path. -/
inductive StatResult where
  | found
  | notExist
  | otherError
  deriving DecidableEq, Repr

/-- What the host answers to the calls the orchestrator makes: `os.Stat`,
the status script run for a printer name (`none`: the command failed),
`exec.LookPath` (no error or not), `filepath.Abs`, the renderer run with a
path and arguments (its combined output, and the error text when it failed),
and `time.Now().Unix()`. -/
structure Host where
  stat : Str → StatResult
  statusCmd : Str → Option Str
  lookPath : Str → Bool
  abs : Str → Str
  render : Str → List Str → Str × Option Str
  nowUnix : Int

/-- The install paths `findGhostscript` tries, in order. -/
def gsPaths : List Str :=
  ["C:\\Program Files\\gs\\gs10.06.0\\bin\\gswin64c.exe".toList,
    "C:\\Program Files (x86)\\gs\\gs10.06.0\\bin\\gswin32c.exe".toList,
    "gswin64c.exe".toList]

/-- The loop of `findGhostscript` over the paths left to try. -/
def findIn (h : Host) : List Str → Str
  | [] => []
  | path :: rest =>
    if h.lookPath path then path
    else if h.stat path = StatResult.found then path
    else findIn h rest

/-- Source `findGhostscript`: the first path found, else the empty string. -/
def findGhostscript (h : Host) : Str :=
  findIn h gsPaths

/-- How the command-line `main` ends, one value per `return` and one for the
hand-over to the monitor, with what the branch prints. -/
inductive CliResult where
  | printerLookupFailed (err : Str)
  | printerNotReady
  | printerError (msg : Str)
  | fileNotFound
  | rendererMissing
  | renderFailed (err output : Str)
  | monitored (run : List (List Event) × Next)
  deriving DecidableEq, Repr

/-- Source `main` of main.go, with its compiled-in document, printer and
settings; `ticks` is what the world supplies to the monitor afterwards. -/
def main (h : Host) (ticks : List Tick) : CliResult :=
  let pdfFile := "test.pdf".toList
  let printerName := "MP230".toList
  let settings : PrintSettings :=
    { PaperSize := "a4".toList, Color := "color".toList, DoubleSided := false,
      DuplexMode := "vertical".toList, Copies := 1 }
  match getPrinterStatus printerName (h.statusCmd printerName) with
  | .error err => CliResult.printerLookupFailed err
  | .ok status =>
    if !status.IsReady then CliResult.printerNotReady
    else if status.HasError then CliResult.printerError status.ErrorMsg
    else if h.stat pdfFile = StatResult.notExist then CliResult.fileNotFound
    else
      let fullPath := h.abs pdfFile
      let gsPath := findGhostscript h
      if gsPath = [] then CliResult.rendererMissing
      else
        let args := buildGSArgs printerName fullPath settings
        match h.render gsPath args with
        | (output, some err) => CliResult.renderFailed err output
        | (_, none) => CliResult.monitored (monitorPrintJob printerName 0 ticks)

/-- Source `PrintRequest`. -/
structure PrintRequest where
  FileName : Str
  Printer : Str
  Settings : PrintSettings
  deriving DecidableEq, Repr

/-- Source `PrintResponse`. -/
structure PrintResponse where
  Success : Bool
  Message : Str
  JobID : Str
  Error : Str
  deriving DecidableEq, Repr

/-- The response body of a failure: `Success: false` and the error text. -/
def failure (error : Str) : PrintResponse :=
  { Success := false, Message := [], JobID := [], Error := error }

/-- The defaults `handlePrint` fills in. -/
def withDefaults (req : PrintRequest) : PrintRequest :=
  let settings := req.Settings
  let settings :=
    if settings.PaperSize = [] then { settings with PaperSize := "a4".toList } else settings
  let settings :=
    if settings.Color = [] then { settings with Color := "color".toList } else settings
  let settings := if settings.Copies ≤ 0 then { settings with Copies := 1 } else settings
  let printer := if req.Printer = [] then "MP230".toList else req.Printer
  { FileName := req.FileName, Printer := printer, Settings := settings }

/-- Source `handlePrint`: the HTTP status and the JSON body.  `body` is what
`BodyParser` made of the request (`none`: it returned an error). -/
def handlePrint (h : Host) (body : Option PrintRequest) : Nat × PrintResponse :=
  match body with
  | none => (400, failure "Invalid request body".toList)
  | some req0 =>
    let req := withDefaults req0
    if h.stat req.FileName = StatResult.notExist then
      (404, failure ("File not found: ".toList ++ req.FileName))
    else
      match getPrinterStatus req.Printer (h.statusCmd req.Printer) with
      | .error _ => (500, failure ("Printer not found: ".toList ++ req.Printer))
      | .ok status =>
        if !status.IsReady then
          (503, failure ("Printer not ready: ".toList ++ status.Status))
        else
          let fullPath := h.abs req.FileName
          let gsPath := findGhostscript h
          if gsPath = [] then (500, failure "Ghostscript not found".toList)
          else
            let args := buildGSArgs req.Printer fullPath req.Settings
            match h.render gsPath args with
            | (output, some err) =>
              (500, failure ("Print failed: ".toList ++ err ++ " - ".toList ++ output))
            | (_, none) =>
              (200, { Success := true, Message := "Print job sent successfully".toList,
                      JobID := "job_".toList ++ formatInt h.nowUnix, Error := [] })

/-- Source `handlePrinterStatus`: the HTTP status, and the snapshot or the
error text. -/
def handlePrinterStatus (h : Host) (printerName : Str) : Nat × Except Str PrinterStatus :=
  match getPrinterStatus printerName (h.statusCmd printerName) with
  | .error err => (404, .error err)
  | .ok status => (200, .ok status)

/-! ## Vocabulary of the specification: command builder -/

/-- The five fixed renderer flags that open the argument list. -/
def fixedFlags : List Str :=
  ["-dPrinted".toList, "-dBATCH".toList, "-dNOPAUSE".toList, "-dNOSAFER".toList, "-q".toList]

/-- The paper sizes the builder knows. -/
def knownSizes : List Str :=
  ["a4".toList, "letter".toList, "legal".toList, "a5".toList]

/-- The paper-size flag of the specification: the device string of a known
size, A4 for anything else. -/
def paperFlag (size : Str) : Str :=
  "-sPAPERSIZE=".toList ++ (if size ∈ knownSizes then size else "a4".toList)

/-- The three greyscale flags, in the order of the specification. -/
def greyFlags : List Str :=
  ["-sProcessColorModel=DeviceGray".toList, "-sColorConversionStrategy=Gray".toList,
    "-dOverrideICC".toList]

/-- The duplex flags of the specification. -/
def duplexFlags (doubleSided : Bool) (mode : Str) : List Str :=
  if doubleSided then
    ["-dDuplex=true".toList,
      if mode = "horizontal".toList then "-dTumble=true".toList else "-dTumble=false".toList]
  else ["-dDuplex=false".toList]

/-! ## Vocabulary of the specification: runs of the monitor -/

/-- The outcome a report announces: the poll-failure and printer-error reports
announce Failed, the completion report Completed, the timeout report TimedOut;
the other reports announce nothing. -/
def Event.outcome? : Event → Option Outcome
  | Event.pollError _ => some Outcome.Failed
  | Event.completed => some Outcome.Completed
  | Event.printerError _ => some Outcome.Failed
  | Event.timeout _ => some Outcome.TimedOut
  | _ => none

/-- The two locals at the moment the body of a tick is left, by `return` or at
its end: untouched when the poll fails or the queue is empty; else the flag is
what the paper block left, and `previousJobs` is the depth unless the
printer-error `return` comes first. -/
def tickLocals (printerName : Str) (st : MonitorState) (t : Tick) : MonitorState :=
  match getPrinterStatus printerName t.cmd with
  | .error _ => st
  | .ok status =>
    if status.JobsInQueue = 0 then st
    else if status.HasError then
      { previousJobs := st.previousJobs, paperWarningShown := !status.HasPaper }
    else { previousJobs := status.JobsInQueue, paperWarningShown := !status.HasPaper }

/-- The two locals where a run stands: at the `return` that ended it, or after
the last tick given. -/
def finalLocals (printerName : Str) (timeoutSec : Int) (st : MonitorState) :
    List Tick → MonitorState
  | [] => st
  | t :: ts =>
    match (monitorTick printerName timeoutSec st t).2 with
    | Next.ret _ => tickLocals printerName st t
    | Next.loop st' => finalLocals printerName timeoutSec st' ts

/-- Number of times a report occurs in a run, all ticks together. -/
def countReports (e : Event) (trace : List (List Event)) : Nat :=
  (trace.map (List.count e)).sum

/-! ## Vocabulary of the specification: snapshots -/

/-- The number a run of decimal digits writes, most significant digit first:
each digit counts for its value times ten to the number of digits after it. -/
def decimalValue : Str → Nat
  | [] => 0
  | d :: ds => (d.toNat - 48) * 10 ^ ds.length + decimalValue ds

/-- The integer a sign and a run of digits write: the negative of the number
behind a minus sign, the number itself behind a plus sign or no sign. -/
def signedValue (sign digits : Str) : Int :=
  if sign = ['-'] then -(decimalValue digits : Int) else (decimalValue digits : Int)

/-- The payload has a minus sign as its first rune that is not a blank. -/
def MinusFirst (payload : Str) : Prop :=
  ∃ blanks rest, payload = blanks ++ '-' :: rest ∧ ∀ c ∈ blanks, isSpace c = true

/-- The three semantic statuses that name a paper condition. -/
def paperStatuses : List Str :=
  ["Paper Jam".toList, "Paper Out".toList, "Paper Problem".toList]

/-- The raw codes whose exact match is a paper condition. -/
def paperCodes : List Str :=
  ["4".toList, "5".toList, "7".toList]

/-! ## Vocabulary of the specification: orchestrator -/

/-- A host for the examples: `os.Stat` answers `doc` for every path that is
not an install path of the renderer, the status script prints `status`
(`none`: it fails), the renderer is found on the search path or nowhere, and a
run of the renderer fails with `renderError` when there is one. -/
def sampleHost (doc : StatResult) (status : Option String) (gs : Bool)
    (renderError : Option String) : Host :=
  { stat := fun path => if path ∈ gsPaths then StatResult.notExist else doc
    statusCmd := fun _ => status.map String.toList
    lookPath := fun _ => gs
    abs := fun path => "C:\\work\\".toList ++ path
    render := fun _ _ => ("gs".toList, renderError.map String.toList)
    nowUnix := 1700000000 }

/-- A request for "test.pdf" that leaves everything else to the defaults. -/
def sampleRequest : PrintRequest :=
  { FileName := "test.pdf".toList, Printer := [],
    Settings := { PaperSize := [], Color := [], DoubleSided := false, DuplexMode := [],
                  Copies := 0 } }

/-! ## Facts about the string helpers -/

theorem contains_iff_isInfix (s w : Str) : Contains s w = true ↔ w <:+: s := by
  unfold Contains
  rw [List.any_eq_true]
  constructor
  · rintro ⟨t, ht, hw⟩
    rw [List.mem_tails] at ht
    rw [List.isPrefixOf_iff_prefix] at hw
    exact List.infix_iff_prefix_suffix.mpr ⟨t, hw, ht⟩
  · intro h
    obtain ⟨t, hw, ht⟩ := List.infix_iff_prefix_suffix.mp h
    exact ⟨t, (List.mem_tails _ _).mpr ht, List.isPrefixOf_iff_prefix.mpr hw⟩

theorem char_eq_of_toNat_eq {c d : Char} (h : c.toNat = d.toNat) : c = d := by
  rw [← Char.ofNat_toNat c, ← Char.ofNat_toNat d, h]

theorem toNat_ofNat_upper (n : Nat) (h1 : 65 ≤ n) (h2 : n ≤ 90) :
    (Char.ofNat (n + 32)).toNat = n + 32 := by
  interval_cases n <;> rfl

theorem toLowerRune_eq_iff (c x : Char) (hx : PlainLetter x) :
    toLowerRune c = x ↔ sameLetter c x := by
  obtain ⟨h1, h2, hi, hk⟩ := hx
  unfold toLowerRune sameLetter
  split_ifs with hu hs ht
  · constructor
    · intro h
      right
      rw [← h, toNat_ofNat_upper c.toNat hu.1 hu.2]
    · rintro (h | h)
      · subst h; omega
      · rw [h, Char.ofNat_toNat]
  · constructor
    · intro h; exact absurd h.symm hi
    · rintro (h | h)
      · subst h; omega
      · omega
  · constructor
    · intro h; exact absurd h.symm hk
    · rintro (h | h)
      · subst h; omega
      · omega
  · constructor
    · intro h; exact Or.inl h
    · rintro (h | h)
      · exact h
      · exfalso
        have : ¬ (65 ≤ c.toNat ∧ c.toNat ≤ 90) := hu
        omega

theorem map_toLowerRune_eq_iff (w : Str) (hw : ∀ x ∈ w, PlainLetter x) (mid : Str) :
    mid.map toLowerRune = w ↔ List.Forall₂ sameLetter mid w := by
  induction mid generalizing w with
  | nil =>
    cases w with
    | nil => simp
    | cons x xs => simp
  | cons c cs ih =>
    cases w with
    | nil => simp
    | cons x xs =>
      have hx : PlainLetter x := hw x (List.mem_cons_self _ _)
      have hxs : ∀ y ∈ xs, PlainLetter y := fun y hy => hw y (List.mem_cons_of_mem _ hy)
      simp only [List.map_cons, List.cons.injEq, List.forall₂_cons]
      rw [toLowerRune_eq_iff c x hx, ih xs hxs]

/-- The containment test of the source, `strings.Contains(strings.ToLower(s), w)`,
is case-insensitive containment of `w` for a word of plain letters. -/
theorem contains_toLower_iff (s w : Str) (hw : ∀ x ∈ w, PlainLetter x) :
    Contains (ToLower s) w = true ↔ ContainsIgnoringCase s w := by
  rw [contains_iff_isInfix]
  unfold ContainsIgnoringCase ToLower
  constructor
  · rintro ⟨a, b, h⟩
    obtain ⟨l1, post, hs, h1, hpost⟩ := List.map_eq_append_iff.mp h.symm
    obtain ⟨pre, mid, hl1, hpre, hmid⟩ := List.map_eq_append_iff.mp h1
    refine ⟨pre, mid, post, ?_, (map_toLowerRune_eq_iff w hw mid).mp hmid⟩
    rw [hs, hl1]
  · rintro ⟨pre, mid, post, hs, hmid⟩
    refine ⟨pre.map toLowerRune, post.map toLowerRune, ?_⟩
    rw [hs, List.map_append, List.map_append, (map_toLowerRune_eq_iff w hw mid).mpr hmid]

theorem plain_paper : ∀ x ∈ "paper".toList, PlainLetter x := by
  unfold PlainLetter; decide

theorem plain_error : ∀ x ∈ "error".toList, PlainLetter x := by
  unfold PlainLetter; decide

theorem not_isSpace_of_sameLetter {c x : Char} (hx : PlainLetter x) (h : sameLetter c x) :
    isSpace c = false := by
  obtain ⟨h1, h2, _, _⟩ := hx
  have hc : 65 ≤ c.toNat ∧ c.toNat ≤ 122 := by
    rcases h with h | h
    · subst h; omega
    · omega
  unfold isSpace
  simp only [Bool.or_eq_false_iff, Bool.and_eq_false_iff, decide_eq_false_iff_not, beq_eq_false_iff_ne,
    ne_eq]
  omega

theorem dropWhile_keeps_block (pre mid post : Str) (m : Char) (ms : Str) (hmid : mid = m :: ms)
    (hm : isSpace m = false) :
    ∃ pre', (pre ++ mid ++ post).dropWhile isSpace = pre' ++ mid ++ post := by
  induction pre with
  | nil =>
    refine ⟨[], ?_⟩
    subst hmid
    simp [List.dropWhile_cons, hm]
  | cons a as ih =>
    by_cases ha : isSpace a = true
    · obtain ⟨pre', h⟩ := ih
      exact ⟨pre', by simpa [List.dropWhile_cons, ha] using h⟩
    · exact ⟨a :: as, by simp [List.dropWhile_cons, ha]⟩

theorem trimSpace_isInfix (s : Str) : TrimSpace s <:+: s := by
  unfold TrimSpace
  have h1 : (s.dropWhile isSpace) <:+ s := List.dropWhile_suffix _
  have h2 : ((s.dropWhile isSpace).reverse.dropWhile isSpace) <:+ (s.dropWhile isSpace).reverse :=
    List.dropWhile_suffix _
  have h3 : ((s.dropWhile isSpace).reverse.dropWhile isSpace).reverse <+: s.dropWhile isSpace := by
    have := List.reverse_prefix.mpr h2
    simpa using this
  exact List.IsInfix.trans h3.isInfix h1.isInfix

theorem trimSpace_keeps_block (pre mid post : Str) (m : Char) (ms : Str) (l : Char) (ls : Str)
    (hmid : mid = m :: ms) (hm : isSpace m = false)
    (hrev : mid.reverse = l :: ls) (hl : isSpace l = false) :
    ∃ pre' post', TrimSpace (pre ++ mid ++ post) = pre' ++ mid ++ post' := by
  obtain ⟨pre', h1⟩ := dropWhile_keeps_block pre mid post m ms hmid hm
  obtain ⟨post', h2⟩ := dropWhile_keeps_block post.reverse mid.reverse pre'.reverse l ls hrev hl
  refine ⟨pre', post'.reverse, ?_⟩
  unfold TrimSpace
  rw [h1]
  have h3 : (pre' ++ mid ++ post).reverse = post.reverse ++ mid.reverse ++ pre'.reverse := by
    simp [List.append_assoc]
  rw [h3, h2]
  simp [List.append_assoc]

/-- Trimming white space neither adds nor removes an occurrence of a word of
plain letters. -/
theorem containsIgnoringCase_trimSpace (s w : Str) (hw : ∀ x ∈ w, PlainLetter x) (hne : w ≠ []) :
    ContainsIgnoringCase (TrimSpace s) w ↔ ContainsIgnoringCase s w := by
  constructor
  · rintro ⟨a, mid, b, ht, hmid⟩
    obtain ⟨x, y, hxy⟩ := trimSpace_isInfix s
    refine ⟨x ++ a, mid, b ++ y, ?_, hmid⟩
    rw [← hxy, ht]
    simp [List.append_assoc]
  · rintro ⟨pre, mid, post, hs, hmid⟩
    have hrev : List.Forall₂ sameLetter mid.reverse w.reverse := List.forall₂_reverse_iff.mpr hmid
    cases hmid with
    | nil => exact absurd rfl hne
    | @cons c x cs xs hcx hrest =>
      have hne' : (x :: xs).reverse ≠ [] := by simp
      cases hr : (x :: xs).reverse with
      | nil => exact absurd hr hne'
      | cons y ys =>
        rw [hr] at hrev
        cases hmr : (c :: cs).reverse with
        | nil => rw [hmr] at hrev; cases hrev
        | cons d ds =>
          rw [hmr] at hrev
          cases hrev with
          | cons hdy _ =>
            have hy : y ∈ x :: xs := by
              have : y ∈ (x :: xs).reverse := by rw [hr]; exact List.mem_cons_self _ _
              exact List.mem_reverse.mp this
            have hc : isSpace c = false :=
              not_isSpace_of_sameLetter (hw x (List.mem_cons_self _ _)) hcx
            have hd : isSpace d = false := not_isSpace_of_sameLetter (hw y hy) hdy
            obtain ⟨pre', post', ht⟩ :=
              trimSpace_keeps_block pre (c :: cs) post c cs d ds rfl hc hmr hd
            exact ⟨pre', c :: cs, post', by rw [hs, ht], List.Forall₂.cons hcx hrest⟩

/-- What the two substring tests of the classifier decide, on the raw code. -/
theorem contains_paper_trim (code : Str) :
    Contains (ToLower (TrimSpace code)) "paper".toList = true ↔
      ContainsIgnoringCase code "paper".toList := by
  rw [contains_toLower_iff _ _ plain_paper]
  exact containsIgnoringCase_trimSpace code _ plain_paper (by decide)

theorem contains_error_trim (code : Str) :
    Contains (ToLower (TrimSpace code)) "error".toList = true ↔
      ContainsIgnoringCase code "error".toList := by
  rw [contains_toLower_iff _ _ plain_error]
  exact containsIgnoringCase_trimSpace code _ plain_error (by decide)

/-- No exact code contains either word. -/
theorem exactCodes_plain : ∀ c ∈ exactCodes,
    Contains (ToLower c) "paper".toList = false ∧ Contains (ToLower c) "error".toList = false := by
  decide

/-- Past the exact matches the classifier is its `default` branch. -/
theorem parseStatusCode_default (code : Str) (h : TrimSpace code ∉ exactCodes) :
    parseStatusCode code =
      if Contains (ToLower (TrimSpace code)) "paper".toList then "Paper Problem".toList
      else if Contains (ToLower (TrimSpace code)) "error".toList then "Error".toList
      else TrimSpace code := by
  unfold parseStatusCode
  simp only [exactCodes, List.mem_cons, List.mem_singleton, not_or, List.not_mem_nil,
    or_false] at h
  obtain ⟨h0, hN, h1, h2, h3, h4, h5, h6, h7, h8⟩ := h
  simp only [h0, hN, h1, h2, h3, h4, h5, h6, h7, h8, or_self, if_false]

theorem dropWhile_isSpace_eq_self_iff (s : Str) :
    s.dropWhile isSpace = s ↔ ∀ c, s.head? = some c → isSpace c = false := by
  cases s with
  | nil => simp
  | cons a as =>
    by_cases ha : isSpace a = true
    · simp only [List.dropWhile_cons, ha, if_true, List.head?_cons, Option.some.injEq,
        forall_eq']
      constructor
      · intro h
        have hlen : (as.dropWhile isSpace).length ≤ as.length :=
          (List.dropWhile_suffix isSpace).length_le
        rw [h] at hlen
        simp at hlen
      · intro h; simp at h
    · simp [List.dropWhile_cons, ha]

/-- A text is left alone by `TrimSpace` exactly when it neither starts nor ends
with white space. -/
theorem trimSpace_eq_self_iff (s : Str) :
    TrimSpace s = s ↔
      (∀ c, s.head? = some c → isSpace c = false) ∧
        (∀ c, s.getLast? = some c → isSpace c = false) := by
  unfold TrimSpace
  constructor
  · intro h
    have hsuf : (s.dropWhile isSpace) <:+ s := List.dropWhile_suffix _
    have hsuf2 : ((s.dropWhile isSpace).reverse.dropWhile isSpace) <:+ (s.dropWhile isSpace).reverse :=
      List.dropWhile_suffix _
    have hl1 := hsuf.length_le
    have hl2 := hsuf2.length_le
    have hl3 : s.length = ((s.dropWhile isSpace).reverse.dropWhile isSpace).length := by
      conv_lhs => rw [← h]
      simp
    have h1 : s.dropWhile isSpace = s := by
      apply hsuf.eq_of_length
      simp only [List.length_reverse] at hl2
      omega
    rw [h1] at h
    have h2 : s.reverse.dropWhile isSpace = s.reverse := by
      rw [← List.reverse_inj, h]
      simp
    refine ⟨(dropWhile_isSpace_eq_self_iff s).mp h1, ?_⟩
    have := (dropWhile_isSpace_eq_self_iff s.reverse).mp h2
    simpa using this
  · rintro ⟨h1, h2⟩
    rw [(dropWhile_isSpace_eq_self_iff s).mpr h1]
    have : s.reverse.dropWhile isSpace = s.reverse :=
      (dropWhile_isSpace_eq_self_iff s.reverse).mpr (by simpa using h2)
    rw [this, List.reverse_reverse]

/-! ## Status classifier: C5, C6, C7 -/

/-- C5: `parseStatusCode` maps the raw codes "0" to "8" to Ready, Paused, Error,
Pending Deletion, Paper Jam, Paper Out, Manual Feed, Paper Problem and Offline
in that order, and the literal "Normal" to Ready. -/
theorem C5_exact_codes :
    parseStatusCode "0".toList = "Ready".toList ∧
    parseStatusCode "1".toList = "Paused".toList ∧
    parseStatusCode "2".toList = "Error".toList ∧
    parseStatusCode "3".toList = "Pending Deletion".toList ∧
    parseStatusCode "4".toList = "Paper Jam".toList ∧
    parseStatusCode "5".toList = "Paper Out".toList ∧
    parseStatusCode "6".toList = "Manual Feed".toList ∧
    parseStatusCode "7".toList = "Paper Problem".toList ∧
    parseStatusCode "8".toList = "Offline".toList ∧
    parseStatusCode "Normal".toList = "Ready".toList := by
  decide

/-- C6: a raw code that is not an exact match and contains "paper"
case-insensitively is classified Paper Problem, also when it contains "error"
too; one that contains "error" but not "paper" is classified Error; so
"PaperJam99" is Paper Problem, not Paper Jam.  The hypothesis on exact matches
is not used: no exact match contains either word. -/
theorem C6_substring_priority (code : Str) (_hcode : code ∉ exactCodes) :
    (ContainsIgnoringCase code "paper".toList →
      parseStatusCode code = "Paper Problem".toList) ∧
    (¬ ContainsIgnoringCase code "paper".toList → ContainsIgnoringCase code "error".toList →
      parseStatusCode code = "Error".toList) ∧
    parseStatusCode "PaperJam99".toList = "Paper Problem".toList ∧
    parseStatusCode "PaperJam99".toList ≠ "Paper Jam".toList := by
  refine ⟨?_, ?_, by decide, by decide⟩
  · intro hp
    have hp' := (contains_paper_trim code).mpr hp
    have hex : TrimSpace code ∉ exactCodes := by
      intro hmem
      have := (exactCodes_plain _ hmem).1
      rw [hp'] at this
      exact Bool.noConfusion this
    rw [parseStatusCode_default code hex, if_pos hp']
  · intro hp he
    have hp' : ¬ Contains (ToLower (TrimSpace code)) "paper".toList = true :=
      fun h => hp ((contains_paper_trim code).mp h)
    have he' := (contains_error_trim code).mpr he
    have hex : TrimSpace code ∉ exactCodes := by
      intro hmem
      have := (exactCodes_plain _ hmem).2
      rw [he'] at this
      exact Bool.noConfusion this
    rw [parseStatusCode_default code hex, if_neg hp', if_pos he']

/-- Witness for C6 at the raw codes "PaperJam99", "Paper Error" and "HwError". -/
theorem C6_substring_priority_witness :
    parseStatusCode "PaperJam99".toList = "Paper Problem".toList ∧
    parseStatusCode "Paper Error".toList = "Paper Problem".toList ∧
    parseStatusCode "HwError".toList = "Error".toList :=
  ⟨(C6_substring_priority "PaperJam99".toList (by decide)).1
      ⟨[], "Paper".toList, "Jam99".toList, rfl, by simp [sameLetter]⟩,
    (C6_substring_priority "Paper Error".toList (by decide)).1
      ⟨[], "Paper".toList, " Error".toList, rfl, by simp [sameLetter]⟩,
    (C6_substring_priority "HwError".toList (by decide)).2.1
      (fun h => by
        have := (contains_toLower_iff _ _ plain_paper).mpr h
        revert this
        decide)
      ⟨"Hw".toList, "Error".toList, [], rfl, by simp [sameLetter]⟩⟩

/-- C7, as stated, fails: the raw code " Idle" is no exact match and contains
neither word, yet the classifier returns "Idle", which is not the input. -/
theorem C7_counterexample :
    " Idle".toList ∉ exactCodes ∧
    ¬ ContainsIgnoringCase " Idle".toList "paper".toList ∧
    ¬ ContainsIgnoringCase " Idle".toList "error".toList ∧
    parseStatusCode " Idle".toList = "Idle".toList ∧
    parseStatusCode " Idle".toList ≠ " Idle".toList := by
  refine ⟨by decide, ?_, ?_, by decide, by decide⟩
  · rw [← contains_toLower_iff _ _ plain_paper]; decide
  · rw [← contains_toLower_iff _ _ plain_error]; decide

/-- C7 amended: a raw code whose trimmed text is no exact match and which
contains neither "paper" nor "error" case-insensitively is classified Unknown
carrying the code with its leading and trailing white space removed; the
result equals the input character for character exactly when the input
neither starts nor ends with white space. -/
theorem C7_unknown_keeps_trimmed_code (code : Str) (hex : TrimSpace code ∉ exactCodes)
    (hp : ¬ ContainsIgnoringCase code "paper".toList)
    (he : ¬ ContainsIgnoringCase code "error".toList) :
    parseStatusCode code = TrimSpace code ∧
    (parseStatusCode code = code ↔
      (∀ c, code.head? = some c → isSpace c = false) ∧
        (∀ c, code.getLast? = some c → isSpace c = false)) := by
  have hp' : ¬ Contains (ToLower (TrimSpace code)) "paper".toList = true :=
    fun h => hp ((contains_paper_trim code).mp h)
  have he' : ¬ Contains (ToLower (TrimSpace code)) "error".toList = true :=
    fun h => he ((contains_error_trim code).mp h)
  have h : parseStatusCode code = TrimSpace code := by
    rw [parseStatusCode_default code hex, if_neg hp', if_neg he']
  exact ⟨h, by rw [h]; exact trimSpace_eq_self_iff code⟩

/-- Witness for the amended C7 at the raw codes "Idle" and " Idle". -/
theorem C7_unknown_keeps_trimmed_code_witness :
    parseStatusCode "Idle".toList = "Idle".toList ∧
    parseStatusCode " Idle".toList = TrimSpace " Idle".toList :=
  ⟨(C7_unknown_keeps_trimmed_code "Idle".toList (by decide)
      (by rw [← contains_toLower_iff _ _ plain_paper]; decide)
      (by rw [← contains_toLower_iff _ _ plain_error]; decide)).1,
    (C7_unknown_keeps_trimmed_code " Idle".toList (by decide)
      (by rw [← contains_toLower_iff _ _ plain_paper]; decide)
      (by rw [← contains_toLower_iff _ _ plain_error]; decide)).1⟩

/-! ## Facts about the status poller -/

theorem not_jobs_of_status (line : Str) (h : HasPrefix line statusPrefix = true) :
    HasPrefix line jobsPrefix = false := by
  cases line with
  | nil => simp [HasPrefix, statusPrefix] at h
  | cons c cs =>
    have hc : c = 'S' := by
      simp [HasPrefix, statusPrefix, List.isPrefixOf] at h
      exact h.1.symm
    subst hc
    simp [HasPrefix, jobsPrefix, List.isPrefixOf]

theorem sscanfJobs_none_of_not_jobs (line : Str) (h : HasPrefix line jobsPrefix = false) :
    sscanfJobs line = none := by
  unfold sscanfJobs
  rw [h]
  rfl

/-- One line of output, case by case. -/
theorem parseLine_of_status (st : PrinterStatus) (line : Str) (h : isStatusLine line = true) :
    parseLine st line =
      { st with
        Status := parseStatusCode (statusPayload line)
        IsReady := Contains (statusPayload line) "Normal".toList ||
          statusPayload line == "0".toList
        HasPaper := !Contains (ToLower (statusPayload line)) "paper".toList
        HasError := Contains (ToLower (statusPayload line)) "error".toList } := by
  unfold isStatusLine at h
  have hj := not_jobs_of_status _ h
  unfold parseLine statusPayload
  simp only [h, hj, if_true, Bool.false_eq_true, if_false]

theorem parseLine_of_jobs (st : PrinterStatus) (line : Str) (h : isStatusLine line = false) :
    parseLine st line =
      match sscanfJobs (TrimSpace line) with
      | some n => { st with JobsInQueue := n }
      | none => st := by
  unfold isStatusLine at h
  unfold parseLine
  simp only [h, Bool.false_eq_true, if_false]
  by_cases hj : HasPrefix (TrimSpace line) jobsPrefix = true
  · simp only [hj, if_true]
  · have hj' : HasPrefix (TrimSpace line) jobsPrefix = false := by simpa using hj
    simp only [hj', Bool.false_eq_true, if_false, sscanfJobs_none_of_not_jobs _ hj']

/-- Queue depth after one line: the scanned value when the scan succeeds, else
the depth so far. -/
theorem parseLine_jobs (st : PrinterStatus) (line : Str) :
    (parseLine st line).JobsInQueue = (sscanfJobs (TrimSpace line)).getD st.JobsInQueue := by
  cases hs : isStatusLine line with
  | true =>
    rw [parseLine_of_status st line hs,
      sscanfJobs_none_of_not_jobs _ (not_jobs_of_status _ (by simpa [isStatusLine] using hs))]
    rfl
  | false =>
    rw [parseLine_of_jobs st line hs]
    cases sscanfJobs (TrimSpace line) <;> rfl

theorem parseLine_status (st : PrinterStatus) (line : Str) (h : isStatusLine line = true) :
    statusFields (parseLine st line) =
      (parseStatusCode (statusPayload line),
        Contains (statusPayload line) "Normal".toList || statusPayload line == "0".toList,
        !Contains (ToLower (statusPayload line)) "paper".toList,
        Contains (ToLower (statusPayload line)) "error".toList) := by
  rw [parseLine_of_status st line h]
  rfl

theorem parseLine_not_status (st : PrinterStatus) (line : Str) (h : isStatusLine line = false) :
    statusFields (parseLine st line) = statusFields st := by
  rw [parseLine_of_jobs st line h]
  cases sscanfJobs (TrimSpace line) <;> rfl

theorem foldl_parseLine_not_status (post : List Str) (st : PrinterStatus)
    (h : ∀ l ∈ post, isStatusLine l = false) :
    statusFields (post.foldl parseLine st) = statusFields st := by
  induction post generalizing st with
  | nil => rfl
  | cons l ls ih =>
    rw [List.foldl_cons, ih _ (fun x hx => h x (List.mem_cons_of_mem _ hx)),
      parseLine_not_status st l (h l (List.mem_cons_self _ _))]

theorem foldl_parseLine_no_scan (post : List Str) (st : PrinterStatus)
    (h : ∀ l ∈ post, sscanfJobs (TrimSpace l) = none) :
    (post.foldl parseLine st).JobsInQueue = st.JobsInQueue := by
  induction post generalizing st with
  | nil => rfl
  | cons l ls ih =>
    rw [List.foldl_cons, ih _ (fun x hx => h x (List.mem_cons_of_mem _ hx)),
      parseLine_jobs, h l (List.mem_cons_self _ _)]
    rfl

/-- The last `STATUS:` line decides the four status fields. -/
theorem foldl_parseLine_last_status (pre post : List Str) (line : Str) (st : PrinterStatus)
    (hline : isStatusLine line = true) (hpost : ∀ l ∈ post, isStatusLine l = false) :
    statusFields ((pre ++ line :: post).foldl parseLine st) =
      (parseStatusCode (statusPayload line),
        Contains (statusPayload line) "Normal".toList || statusPayload line == "0".toList,
        !Contains (ToLower (statusPayload line)) "paper".toList,
        Contains (ToLower (statusPayload line)) "error".toList) := by
  rw [List.foldl_append, List.foldl_cons, foldl_parseLine_not_status post _ hpost,
    parseLine_status _ line hline]

/-- The last `JOBS:` line that scans decides the queue depth. -/
theorem foldl_parseLine_last_jobs (pre post : List Str) (line : Str) (st : PrinterStatus)
    (n : Int) (hline : sscanfJobs (TrimSpace line) = some n)
    (hpost : ∀ l ∈ post, sscanfJobs (TrimSpace l) = none) :
    ((pre ++ line :: post).foldl parseLine st).JobsInQueue = n := by
  rw [List.foldl_append, List.foldl_cons, foldl_parseLine_no_scan post _ hpost, parseLine_jobs,
    hline]
  rfl

/-! ### The `%d` scan -/

theorem skipSpace_some (p r : Str) (h : skipSpace p = some r) :
    ∃ blanks, p = blanks ++ r ∧ ∀ c ∈ blanks, isSpace c = true := by
  induction p with
  | nil =>
    simp only [skipSpace, Option.some.injEq] at h
    exact ⟨[], by rw [← h]; rfl, by simp⟩
  | cons c cs ih =>
    rw [skipSpace] at h
    split_ifs at h with h1 h2 h3
    · obtain ⟨b, hb, hsp⟩ := ih h
      refine ⟨c :: b, by rw [hb]; rfl, ?_⟩
      intro x hx
      rcases List.mem_cons.mp hx with hx | hx
      · rw [hx, h1.1]; decide
      · exact hsp x hx
    · obtain ⟨b, hb, hsp⟩ := ih h
      refine ⟨c :: b, by rw [hb]; rfl, ?_⟩
      intro x hx
      rcases List.mem_cons.mp hx with hx | hx
      · rw [hx]; exact h3
      · exact hsp x hx
    · simp only [Option.some.injEq] at h
      exact ⟨[], by rw [← h]; rfl, by simp⟩

theorem takeWhile_ne_nil {p : Char → Bool} (l : Str) (h : l.takeWhile p ≠ []) :
    ∃ d t, l = d :: t ∧ p d = true := by
  cases l with
  | nil => simp at h
  | cons d t =>
    by_cases hd : p d = true
    · exact ⟨d, t, rfl, hd⟩
    · simp [List.takeWhile_cons, hd] at h

/-- When `%d` scans a value, the text starts with an integer. -/
theorem scanInt_some (p : Str) (n : Int) (h : scanInt p = some n) : LeadingInteger p := by
  unfold scanInt at h
  split at h
  · exact absurd h (by simp)
  · exact absurd h (by simp)
  · rename_i c cs hsk
    obtain ⟨blanks, hp, hblanks⟩ := skipSpace_some p (c :: cs) hsk
    simp only at h
    by_cases hsign : c = '+' ∨ c = '-'
    · rw [if_pos hsign] at h
      by_cases hd : cs.takeWhile isDecimalDigit = []
      · rw [if_pos hd] at h
        exact absurd h (by simp)
      · obtain ⟨d, t, hcs, hdig⟩ := takeWhile_ne_nil cs hd
        refine ⟨blanks, [c], d, t, ?_, hblanks, ?_, hdig⟩
        · rw [hp, hcs]; simp
        · rcases hsign with h1 | h1
          · right; left; rw [h1]
          · right; right; rw [h1]
    · rw [if_neg hsign] at h
      by_cases hd : (c :: cs).takeWhile isDecimalDigit = []
      · rw [if_pos hd] at h
        exact absurd h (by simp)
      · obtain ⟨d, t, hcs, hdig⟩ := takeWhile_ne_nil (c :: cs) hd
        refine ⟨blanks, [], d, t, ?_, hblanks, Or.inl rfl, hdig⟩
        rw [hp, hcs]; simp

theorem sscanfJobs_some (line : Str) (n : Int) (h : sscanfJobs line = some n) :
    HasPrefix line jobsPrefix = true ∧ LeadingInteger (line.drop jobsPrefix.length) := by
  unfold sscanfJobs at h
  split_ifs at h with hpre
  refine ⟨hpre, ?_⟩
  split at h
  · exact absurd h (by simp)
  · rename_i rest hsk
    obtain ⟨b1, hb1, hsp1⟩ := skipSpace_some _ rest hsk
    obtain ⟨b2, sign, d, t, hrest, hsp2, hsign, hd⟩ := scanInt_some rest n h
    refine ⟨b1 ++ b2, sign, d, t, ?_, ?_, hsign, hd⟩
    · rw [hb1, hrest]; simp
    · intro c hc
      rcases List.mem_append.mp hc with hc | hc
      · exact hsp1 c hc
      · exact hsp2 c hc

/-- A `JOBS:` line whose payload does not start with an integer scans nothing. -/
theorem sscanfJobs_none_of_no_integer (l : Str)
    (h : isJobsLine l = true → ¬ LeadingInteger (jobsPayload l)) :
    sscanfJobs (TrimSpace l) = none := by
  cases hsc : sscanfJobs (TrimSpace l) with
  | none => rfl
  | some n =>
    obtain ⟨hpre, hlead⟩ := sscanfJobs_some _ n hsc
    exact absurd hlead (h hpre)

theorem not_leadingInteger_of_no_digit (p : Str) (h : ∀ c ∈ p, isDecimalDigit c = false) :
    ¬ LeadingInteger p := by
  rintro ⟨blanks, sign, d, rest, hp, _, _, hd⟩
  have hmem : d ∈ p := by rw [hp]; simp
  rw [h d hmem] at hd
  exact Bool.noConfusion hd

/-! ### The value `%d` scans -/

theorem foldl_digits (ds : Str) (acc : Nat) :
    ds.foldl (fun a d => 10 * a + (d.toNat - 48)) acc =
      acc * 10 ^ ds.length + decimalValue ds := by
  induction ds generalizing acc with
  | nil => simp [decimalValue]
  | cons d ds ih =>
    rw [List.foldl_cons, ih, decimalValue, List.length_cons, pow_succ]
    ring

/-- The scanner's digit value is the number the digits write. -/
theorem digitsValue_eq (ds : Str) : digitsValue ds = decimalValue ds := by
  unfold digitsValue
  rw [foldl_digits]
  simp

theorem not_isSpace_of_digit {c : Char} (h : isDecimalDigit c = true) : isSpace c = false := by
  unfold isDecimalDigit at h
  simp only [Bool.and_eq_true, decide_eq_true_eq] at h
  unfold isSpace
  simp only [Bool.or_eq_false_iff, Bool.and_eq_false_iff, decide_eq_false_iff_not,
    beq_eq_false_iff_ne, ne_eq]
  omega

theorem digit_not_sign {c : Char} (h : isDecimalDigit c = true) : ¬ (c = '+' ∨ c = '-') := by
  unfold isDecimalDigit at h
  simp only [Bool.and_eq_true, decide_eq_true_eq] at h
  rintro (hc | hc) <;> rw [hc] at h <;> revert h <;> decide

/-- Blanks without a newline in front of a rune that is not a blank are
skipped, and nothing else. -/
theorem skipSpace_blanks (blanks : Str) (x : Char) (xs : Str)
    (hb : ∀ c ∈ blanks, isSpace c = true ∧ c ≠ '\n') (hx : isSpace x = false) :
    skipSpace (blanks ++ x :: xs) = some (x :: xs) := by
  induction blanks with
  | nil =>
    have hr : x ≠ '\r' := by intro h; rw [h] at hx; revert hx; decide
    have hn : x ≠ '\n' := by intro h; rw [h] at hx; revert hx; decide
    simp only [List.nil_append, skipSpace, hr, hn, hx, false_and, if_false, Bool.false_eq_true]
  | cons c cs ih =>
    have hc := hb c (List.mem_cons_self _ _)
    have ih' := ih (fun y hy => hb y (List.mem_cons_of_mem _ hy))
    rw [List.cons_append, skipSpace]
    split_ifs with h1 h2 h3
    · exact ih'
    · exact absurd h2 hc.2
    · exact ih'
    · exact absurd hc.1 h3

theorem takeWhile_digits (digits rest : Str) (hd : ∀ c ∈ digits, isDecimalDigit c = true)
    (hr : ∀ c, rest.head? = some c → isDecimalDigit c = false) :
    (digits ++ rest).takeWhile isDecimalDigit = digits := by
  induction digits with
  | nil =>
    cases rest with
    | nil => rfl
    | cons r rs =>
      have := hr r rfl
      simp [List.takeWhile_cons, this]
  | cons d ds ih =>
    have h1 := hd d (List.mem_cons_self _ _)
    rw [List.cons_append, List.takeWhile_cons, h1]
    simp only [if_true]
    rw [ih (fun c hc => hd c (List.mem_cons_of_mem _ hc))]

/-- The scan of an integer, from what `SkipSpace` leaves. -/
theorem scanInt_of_parts (input : Str) (c : Char) (cs ds : Str) (v : Int)
    (hskip : skipSpace input = some (c :: cs))
    (hds : (if c = '+' ∨ c = '-' then cs else c :: cs).takeWhile isDecimalDigit = ds)
    (hne : ds ≠ [])
    (hv : (if c = '-' then -(digitsValue ds : Int) else (digitsValue ds : Int)) = v)
    (hrange : -(2 ^ 63) ≤ v ∧ v < 2 ^ 63) : scanInt input = some v := by
  unfold scanInt
  rw [hskip]
  simp only
  rw [hds, if_neg hne, hv, if_pos hrange]

/-- The integer `%d` scans: past the blanks, behind at most one sign, the
digits up to the first rune that is not a digit are read, and the value is the
integer they write, when it fits in 64 bits. -/
theorem scanInt_value (blanks sign digits rest : Str)
    (hb : ∀ c ∈ blanks, isSpace c = true ∧ c ≠ '\n')
    (hs : sign = [] ∨ sign = ['+'] ∨ sign = ['-'])
    (hne : digits ≠ []) (hd : ∀ c ∈ digits, isDecimalDigit c = true)
    (hr : ∀ c, rest.head? = some c → isDecimalDigit c = false)
    (hlo : -(2 ^ 63) ≤ signedValue sign digits) (hhi : signedValue sign digits < 2 ^ 63) :
    scanInt (blanks ++ (sign ++ (digits ++ rest))) = some (signedValue sign digits) := by
  have htw := takeWhile_digits digits rest hd hr
  cases digits with
  | nil => exact absurd rfl hne
  | cons d ds =>
    have hdig := hd d (List.mem_cons_self _ _)
    have hnsign := digit_not_sign hdig
    rcases hs with hs | hs | hs
    · subst hs
      have hm : ¬ d = '-' := fun h => hnsign (Or.inr h)
      have hsg : ¬ ([] : Str) = ['-'] := by decide
      apply scanInt_of_parts _ d (ds ++ rest) (d :: ds) _
        (skipSpace_blanks blanks d (ds ++ rest) hb (not_isSpace_of_digit hdig))
      · rw [if_neg hnsign]; exact htw
      · exact hne
      · rw [if_neg hm, digitsValue_eq]
        unfold signedValue
        rw [if_neg hsg]
      · exact ⟨hlo, hhi⟩
    · subst hs
      have hm : ¬ ('+' : Char) = '-' := by decide
      have hsg : ¬ (['+'] : Str) = ['-'] := by decide
      apply scanInt_of_parts _ '+' (d :: ds ++ rest) (d :: ds) _
        (skipSpace_blanks blanks '+' (d :: ds ++ rest) hb (by decide))
      · rw [if_pos (Or.inl rfl)]; exact htw
      · exact hne
      · rw [if_neg hm, digitsValue_eq]
        unfold signedValue
        rw [if_neg hsg]
      · exact ⟨hlo, hhi⟩
    · subst hs
      apply scanInt_of_parts _ '-' (d :: ds ++ rest) (d :: ds) _
        (skipSpace_blanks blanks '-' (d :: ds ++ rest) hb (by decide))
      · rw [if_pos (Or.inr rfl)]; exact htw
      · exact hne
      · rw [if_pos rfl, digitsValue_eq]
        unfold signedValue
        rw [if_pos rfl]
      · exact ⟨hlo, hhi⟩

/-- The same for the whole `Sscanf` of a `JOBS:` line. -/
theorem sscanfJobs_value (blanks sign digits rest : Str)
    (hb : ∀ c ∈ blanks, isSpace c = true ∧ c ≠ '\n')
    (hs : sign = [] ∨ sign = ['+'] ∨ sign = ['-'])
    (hne : digits ≠ []) (hd : ∀ c ∈ digits, isDecimalDigit c = true)
    (hr : ∀ c, rest.head? = some c → isDecimalDigit c = false)
    (hlo : -(2 ^ 63) ≤ signedValue sign digits) (hhi : signedValue sign digits < 2 ^ 63) :
    sscanfJobs (jobsPrefix ++ (blanks ++ (sign ++ (digits ++ rest)))) =
      some (signedValue sign digits) := by
  have hfirst : ∃ x xs, sign ++ (digits ++ rest) = x :: xs ∧ isSpace x = false := by
    cases digits with
    | nil => exact absurd rfl hne
    | cons d ds =>
      have hdig := hd d (List.mem_cons_self _ _)
      rcases hs with hs | hs | hs
      · exact ⟨d, ds ++ rest, by rw [hs]; rfl, not_isSpace_of_digit hdig⟩
      · exact ⟨'+', (d :: ds) ++ rest, by rw [hs]; rfl, by decide⟩
      · exact ⟨'-', (d :: ds) ++ rest, by rw [hs]; rfl, by decide⟩
  obtain ⟨x, xs, htail, hx⟩ := hfirst
  unfold sscanfJobs
  have hpre : HasPrefix (jobsPrefix ++ (blanks ++ (sign ++ (digits ++ rest)))) jobsPrefix = true := by
    unfold HasPrefix
    rw [List.isPrefixOf_iff_prefix]
    exact List.prefix_append _ _
  rw [hpre, if_pos rfl, List.drop_left, htail, skipSpace_blanks blanks x xs hb hx]
  simp only
  have := scanInt_value [] sign digits rest (by simp) hs hne hd hr hlo hhi
  rw [List.nil_append, htail] at this
  exact this

theorem split_no_sep (s : Str) (sep : Char) : ∀ l ∈ Split s sep, sep ∉ l := by
  induction s with
  | nil =>
    intro l hl
    simp only [Split, List.mem_singleton] at hl
    rw [hl]
    exact List.not_mem_nil _
  | cons c cs ih =>
    intro l hl
    rw [Split] at hl
    split_ifs at hl with hc
    · rcases List.mem_cons.mp hl with h | h
      · rw [h]; exact List.not_mem_nil _
      · exact ih l h
    · cases hsp : Split cs sep with
      | nil =>
        rw [hsp] at hl
        simp only [List.mem_singleton] at hl
        rw [hl]
        simp only [List.mem_singleton]
        exact fun h => hc h.symm
      | cons piece pieces =>
        rw [hsp] at hl ih
        simp only at hl
        rcases List.mem_cons.mp hl with h | h
        · rw [h]
          intro hmem
          rcases List.mem_cons.mp hmem with h1 | h1
          · exact hc h1.symm
          · exact ih piece (List.mem_cons_self _ _) h1
        · exact ih l (List.mem_cons_of_mem _ h)

/-- The last `JOBS:` line that scans, read in full: when its trimmed text is
the prefix, blanks, at most one sign, digits and a rest that does not start
with a digit, and the integer written fits in 64 bits, the snapshot's queue
depth is that integer. -/
theorem getPrinterStatus_jobs_value (printerName output : Str) (pre post : List Str)
    (line blanks sign digits rest : Str)
    (hsplit : Split output '\n' = pre ++ line :: post)
    (hline : TrimSpace line = jobsPrefix ++ (blanks ++ (sign ++ (digits ++ rest))))
    (hb : ∀ c ∈ blanks, isSpace c = true)
    (hs : sign = [] ∨ sign = ['+'] ∨ sign = ['-'])
    (hne : digits ≠ []) (hd : ∀ c ∈ digits, isDecimalDigit c = true)
    (hr : ∀ c, rest.head? = some c → isDecimalDigit c = false)
    (hlo : -(2 ^ 63) ≤ signedValue sign digits) (hhi : signedValue sign digits < 2 ^ 63)
    (hpost : ∀ l ∈ post, sscanfJobs (TrimSpace l) = none) :
    ∃ s, getPrinterStatus printerName (some output) = .ok s ∧
      s.JobsInQueue = signedValue sign digits := by
  have hmem : line ∈ Split output '\n' := by rw [hsplit]; simp
  have hnl : ('\n' : Char) ∉ TrimSpace line :=
    fun h => split_no_sep output '\n' line hmem ((trimSpace_isInfix line).mem h)
  have hb' : ∀ c ∈ blanks, isSpace c = true ∧ c ≠ '\n' := by
    intro c hc
    refine ⟨hb c hc, ?_⟩
    intro hcn
    apply hnl
    rw [hline, ← hcn]
    simp [hc]
  have hscan : sscanfJobs (TrimSpace line) = some (signedValue sign digits) := by
    rw [hline]
    exact sscanfJobs_value blanks sign digits rest hb' hs hne hd hr hlo hhi
  refine ⟨_, rfl, ?_⟩
  rw [hsplit]
  exact foldl_parseLine_last_jobs pre post line _ _ hscan hpost

/-! ## Status poller: C8, C9, C10 -/

/-- C8: the three boolean facets of the snapshot come from the raw payload of
the `STATUS:` line in force alone: IsReady is (payload contains "Normal" or
payload is "0"), HasPaper is (payload does not contain "paper"
case-insensitively), HasError is (payload contains "error" case-insensitively),
whatever the classifier makes of the payload; the payload "Normal-paper-error"
gives IsReady true, HasPaper false and HasError true at once. -/
theorem C8_facets_from_payload (printerName output : Str) (pre post : List Str) (line : Str)
    (hsplit : Split output '\n' = pre ++ line :: post)
    (hline : isStatusLine line = true)
    (hpost : ∀ l ∈ post, isStatusLine l = false) :
    (∃ s, getPrinterStatus printerName (some output) = .ok s ∧
      (s.IsReady = true ↔
        ("Normal".toList <:+: statusPayload line ∨ statusPayload line = "0".toList)) ∧
      (s.HasPaper = true ↔ ¬ ContainsIgnoringCase (statusPayload line) "paper".toList) ∧
      (s.HasError = true ↔ ContainsIgnoringCase (statusPayload line) "error".toList)) ∧
    getPrinterStatus "MP230".toList (some "STATUS:Normal-paper-error\nJOBS:1\n".toList) =
      .ok { Name := "MP230".toList, Status := "Paper Problem".toList, JobsInQueue := 1,
            IsReady := true, HasPaper := false, HasError := true, ErrorMsg := [] } := by
  refine ⟨⟨_, rfl, ?_⟩, by rfl⟩
  have h := foldl_parseLine_last_status pre post line (emptyStatus printerName) hline hpost
  rw [← hsplit] at h
  simp only [statusFields, Prod.mk.injEq] at h
  obtain ⟨_, hr, hp, he⟩ := h
  rw [hr, hp, he]
  refine ⟨?_, ?_, ?_⟩
  · rw [Bool.or_eq_true, contains_iff_isInfix, beq_iff_eq]
  · rw [Bool.not_eq_true', ← contains_toLower_iff _ _ plain_paper, Bool.not_eq_true]
  · exact contains_toLower_iff _ _ plain_error

/-- Witness for C8 at the output "STATUS:Normal-paper-error", "JOBS:1". -/
theorem C8_facets_from_payload_witness :
    ∃ s, getPrinterStatus "MP230".toList (some "STATUS:Normal-paper-error\nJOBS:1".toList) = .ok s ∧
      (s.IsReady = true ↔
        ("Normal".toList <:+: "Normal-paper-error".toList ∨
          "Normal-paper-error".toList = "0".toList)) ∧
      (s.HasPaper = true ↔ ¬ ContainsIgnoringCase "Normal-paper-error".toList "paper".toList) ∧
      (s.HasError = true ↔ ContainsIgnoringCase "Normal-paper-error".toList "error".toList) :=
  (C8_facets_from_payload "MP230".toList "STATUS:Normal-paper-error\nJOBS:1".toList []
    ["JOBS:1".toList] "STATUS:Normal-paper-error".toList (by decide) (by decide) (by decide)).1

/-- C9, as stated, fails: in the output "STATUS:0", "STATUS:1", "JOBS:1",
"JOBS:2" the first `STATUS:` line alone gives Ready and ready, the first
`JOBS:` line gives depth 1, yet the snapshot is Paused, not ready, with
depth 2. -/
theorem C9_counterexample :
    (Split "STATUS:0\nSTATUS:1\nJOBS:1\nJOBS:2\n".toList '\n').find? isStatusLine =
      some "STATUS:0".toList ∧
    (Split "STATUS:0\nSTATUS:1\nJOBS:1\nJOBS:2\n".toList '\n').find? isJobsLine =
      some "JOBS:1".toList ∧
    parseLine (emptyStatus "MP230".toList) "STATUS:0".toList =
      { Name := "MP230".toList, Status := "Ready".toList, JobsInQueue := 0,
        IsReady := true, HasPaper := true, HasError := false, ErrorMsg := [] } ∧
    (parseLine (emptyStatus "MP230".toList) "JOBS:1".toList).JobsInQueue = 1 ∧
    getPrinterStatus "MP230".toList (some "STATUS:0\nSTATUS:1\nJOBS:1\nJOBS:2\n".toList) =
      .ok { Name := "MP230".toList, Status := "Paused".toList, JobsInQueue := 2,
            IsReady := false, HasPaper := true, HasError := false, ErrorMsg := [] } := by
  refine ⟨by decide, by decide, by rfl, by rfl, by rfl⟩

/-- C9 amended, last occurrence wins: the snapshot takes its status, ready,
has-paper and has-error fields from the last line with the prefix `STATUS:`,
and its queue depth from the last `JOBS:` line whose payload scans as an
integer; earlier lines with the same prefix leave no trace in these fields. -/
theorem C9_last_occurrence_wins (printerName output : Str) (pre post : List Str) (line : Str)
    (hsplit : Split output '\n' = pre ++ line :: post) :
    ∃ s, getPrinterStatus printerName (some output) = .ok s ∧
      (isStatusLine line = true → (∀ l ∈ post, isStatusLine l = false) →
        statusFields s = statusFields (parseLine (emptyStatus printerName) line)) ∧
      (∀ n, sscanfJobs (TrimSpace line) = some n →
        (∀ l ∈ post, sscanfJobs (TrimSpace l) = none) →
        s.JobsInQueue = n ∧ (parseLine (emptyStatus printerName) line).JobsInQueue = n) := by
  refine ⟨_, rfl, ?_, ?_⟩
  · intro hline hpost
    rw [hsplit, foldl_parseLine_last_status pre post line _ hline hpost,
      parseLine_status _ line hline]
  · intro n hn hpost
    rw [hsplit]
    refine ⟨foldl_parseLine_last_jobs pre post line _ n hn hpost, ?_⟩
    rw [parseLine_jobs, hn]
    rfl

/-- Witness for the amended C9 at the output "STATUS:0", "STATUS:1", "JOBS:1",
"JOBS:2": the fields are those of "STATUS:1" and of "JOBS:2". -/
theorem C9_last_occurrence_wins_witness :
    (∃ s, getPrinterStatus "MP230".toList (some "STATUS:0\nSTATUS:1\nJOBS:1\nJOBS:2".toList) = .ok s ∧
      statusFields s = statusFields (parseLine (emptyStatus "MP230".toList) "STATUS:1".toList)) ∧
    (∃ s, getPrinterStatus "MP230".toList (some "STATUS:0\nSTATUS:1\nJOBS:1\nJOBS:2".toList) = .ok s ∧
      s.JobsInQueue = 2) := by
  constructor
  · obtain ⟨s, hs, h1, _⟩ := C9_last_occurrence_wins "MP230".toList
      "STATUS:0\nSTATUS:1\nJOBS:1\nJOBS:2".toList ["STATUS:0".toList]
      ["JOBS:1".toList, "JOBS:2".toList] "STATUS:1".toList (by decide)
    exact ⟨s, hs, h1 (by decide) (by decide)⟩
  · obtain ⟨s, hs, _, h2⟩ := C9_last_occurrence_wins "MP230".toList
      "STATUS:0\nSTATUS:1\nJOBS:1\nJOBS:2".toList
      ["STATUS:0".toList, "STATUS:1".toList, "JOBS:1".toList] [] "JOBS:2".toList (by decide)
    exact ⟨s, hs, (h2 2 (by decide) (by decide)).1⟩

/-- C10, as stated, fails: the payload of "JOBS:12abc" is not a well-formed
integer (it is not made of digits), yet the snapshot's queue depth is 12,
not 0. -/
theorem C10_counterexample :
    getPrinterStatus "MP230".toList (some "STATUS:0\nJOBS:12abc\n".toList) =
      .ok { Name := "MP230".toList, Status := "Ready".toList, JobsInQueue := 12,
            IsReady := true, HasPaper := true, HasError := false, ErrorMsg := [] } ∧
    "12abc".toList.all isDecimalDigit = false ∧
    sscanfJobs "JOBS:12abc".toList = some 12 ∧
    sscanfJobs "JOBS:12abc".toList ≠ some 0 := by
  refine ⟨by rfl, by decide, by decide, by decide⟩

/-- C10 amended: when no `JOBS:` line of the output has a payload that starts
with an integer (blanks, at most one sign, then a digit), as in "JOBS:abc" and
"JOBS:", `getPrinterStatus` still succeeds and the queue depth is 0; a `JOBS:`
line whose payload is blanks, at most one sign, decimal digits and then any
text that does not start with a digit scans as the integer the sign and the
digits write, provided it fits in 64 bits, and gives the snapshot that queue
depth when no later `JOBS:` line scans: "JOBS:12abc" gives 12. -/
theorem C10_no_integer_gives_zero (printerName output : Str) :
    ((∀ l ∈ Split output '\n', isJobsLine l = true → ¬ LeadingInteger (jobsPayload l)) →
      ∃ s, getPrinterStatus printerName (some output) = .ok s ∧ s.JobsInQueue = 0) ∧
    (∀ (pre post : List Str) (line blanks sign digits rest : Str),
      Split output '\n' = pre ++ line :: post →
      TrimSpace line = jobsPrefix ++ (blanks ++ (sign ++ (digits ++ rest))) →
      (∀ c ∈ blanks, isSpace c = true) →
      (sign = [] ∨ sign = ['+'] ∨ sign = ['-']) →
      digits ≠ [] → (∀ c ∈ digits, isDecimalDigit c = true) →
      (∀ c, rest.head? = some c → isDecimalDigit c = false) →
      -(2 ^ 63) ≤ signedValue sign digits → signedValue sign digits < 2 ^ 63 →
      (∀ l ∈ post, sscanfJobs (TrimSpace l) = none) →
      ∃ s, getPrinterStatus printerName (some output) = .ok s ∧
        s.JobsInQueue = signedValue sign digits) ∧
    sscanfJobs "JOBS:abc".toList = none ∧ sscanfJobs "JOBS:".toList = none ∧
    sscanfJobs "JOBS:12abc".toList = some 12 := by
  refine ⟨?_, ?_, by decide, by decide, by decide⟩
  · intro h
    exact ⟨_, rfl, foldl_parseLine_no_scan _ _
      (fun l hl => sscanfJobs_none_of_no_integer l (h l hl))⟩
  · intro pre post line blanks sign digits rest hsplit hline hb hs hne hd hr hlo hhi hpost
    exact getPrinterStatus_jobs_value printerName output pre post line blanks sign digits rest
      hsplit hline hb hs hne hd hr hlo hhi hpost

/-- Witness for the amended C10 at the outputs "STATUS:0", "JOBS:abc", "JOBS:"
and "STATUS:0", "JOBS:12abc". -/
theorem C10_no_integer_gives_zero_witness :
    (∃ s, getPrinterStatus "MP230".toList (some "STATUS:0\nJOBS:abc\nJOBS:".toList) = .ok s ∧
      s.JobsInQueue = 0) ∧
    (∃ s, getPrinterStatus "MP230".toList (some "STATUS:0\nJOBS:12abc".toList) = .ok s ∧
      s.JobsInQueue = signedValue [] "12".toList) ∧
    signedValue [] "12".toList = 12 :=
  ⟨(C10_no_integer_gives_zero "MP230".toList "STATUS:0\nJOBS:abc\nJOBS:".toList).1 (by
      have hs : Split "STATUS:0\nJOBS:abc\nJOBS:".toList '\n' =
          ["STATUS:0".toList, "JOBS:abc".toList, "JOBS:".toList] := by decide
      rw [hs]
      intro l hl hj
      simp only [List.mem_cons, List.mem_singleton, List.not_mem_nil, or_false] at hl
      rcases hl with rfl | rfl | rfl
      · exact absurd hj (by decide)
      · exact not_leadingInteger_of_no_digit _ (by decide)
      · exact not_leadingInteger_of_no_digit _ (by decide)),
    (C10_no_integer_gives_zero "MP230".toList "STATUS:0\nJOBS:12abc".toList).2.1
      ["STATUS:0".toList] [] "JOBS:12abc".toList [] [] "12".toList "abc".toList
      (by decide) (by decide) (by decide) (Or.inl rfl) (by decide) (by decide) (by decide)
      (by decide) (by decide) (by decide),
    by decide⟩

/-! ## Facts about the job monitor -/

/-- A tick the loop survives, in one equation: its reports, and the locals it
leaves, which are the snapshot's queue depth and the negation of its has-paper
value. -/
theorem monitorTick_continuing (N : Str) (T : Int) (st : MonitorState) (t : Tick) (s : PrinterStatus)
    (hpoll : getPrinterStatus N t.cmd = .ok s) (hd : s.JobsInQueue ≠ 0) (he : s.HasError = false)
    (hto : timedOut T t.sinceTimeout = false) :
    monitorTick N T st t =
      (paperReport st.paperWarningShown s.HasPaper ++
          progressReport st.previousJobs s t.sinceProgress,
        Next.loop { previousJobs := s.JobsInQueue, paperWarningShown := !s.HasPaper }) := by
  unfold monitorTick paperReport progressReport
  rw [hpoll]
  simp only [hd, he, hto, if_false, Bool.false_eq_true]
  cases hp : s.HasPaper <;> cases hs : st.paperWarningShown <;>
    by_cases hj : s.JobsInQueue = st.previousJobs <;> simp [hj]

/-- A tick whose snapshot has an empty queue reports completion and returns. -/
theorem monitorTick_empty_queue (N : Str) (T : Int) (st : MonitorState) (t : Tick) (s : PrinterStatus)
    (hpoll : getPrinterStatus N t.cmd = .ok s) (hd : s.JobsInQueue = 0) :
    monitorTick N T st t = ([Event.completed], Next.ret Outcome.Completed) := by
  unfold monitorTick
  rw [hpoll]
  simp only [hd, if_true]

theorem monitorLoop_cons_loop (N : Str) (T : Int) (st st1 : MonitorState) (t : Tick) (ts : List Tick)
    (evs : List Event) (h : monitorTick N T st t = (evs, Next.loop st1)) :
    monitorLoop N T st (t :: ts) = (evs :: (monitorLoop N T st1 ts).1, (monitorLoop N T st1 ts).2) := by
  rw [monitorLoop, h]

theorem monitorLoop_cons_ret (N : Str) (T : Int) (st : MonitorState) (t : Tick) (ts : List Tick)
    (evs : List Event) (o : Outcome) (h : monitorTick N T st t = (evs, Next.ret o)) :
    monitorLoop N T st (t :: ts) = ([evs], Next.ret o) := by
  rw [monitorLoop, h]

theorem monitorLoop_cons_continuing (N : Str) (T : Int) (st : MonitorState) (t : Tick) (ts : List Tick)
    (s : PrinterStatus) (hpoll : getPrinterStatus N t.cmd = .ok s) (hd : s.JobsInQueue ≠ 0)
    (he : s.HasError = false) (hto : timedOut T t.sinceTimeout = false) :
    monitorLoop N T st (t :: ts) =
      ((paperReport st.paperWarningShown s.HasPaper ++
            progressReport st.previousJobs s t.sinceProgress) ::
          (monitorLoop N T { previousJobs := s.JobsInQueue, paperWarningShown := !s.HasPaper } ts).1,
        (monitorLoop N T { previousJobs := s.JobsInQueue, paperWarningShown := !s.HasPaper } ts).2) :=
  monitorLoop_cons_loop N T st _ t ts _ (monitorTick_continuing N T st t s hpoll hd he hto)

/-- Over surviving ticks the loop is still going when they run out, and it has
reported once per tick. -/
theorem monitorLoop_continuing (N : Str) (T : Int) (ticks : List Tick) (st : MonitorState)
    (h : ∀ t ∈ ticks, Tick.continuing N T t) :
    (∃ st', (monitorLoop N T st ticks).2 = Next.loop st') ∧
      (monitorLoop N T st ticks).1.length = ticks.length := by
  induction ticks generalizing st with
  | nil => exact ⟨⟨st, rfl⟩, rfl⟩
  | cons t ts ih =>
    obtain ⟨s, hpoll, hd, he, hto⟩ := h t (List.mem_cons_self _ _)
    rw [monitorLoop_cons_continuing N T st t ts s hpoll hd he hto]
    obtain ⟨hst, hlen⟩ := ih { previousJobs := s.JobsInQueue, paperWarningShown := !s.HasPaper }
      (fun x hx => h x (List.mem_cons_of_mem _ hx))
    exact ⟨hst, by simp [hlen]⟩

/-- A run that is still going after `ts` goes on over `us` from the locals it
reached. -/
theorem monitorLoop_append (N : Str) (T : Int) (ts us : List Tick) (st st' : MonitorState)
    (h : (monitorLoop N T st ts).2 = Next.loop st') :
    monitorLoop N T st (ts ++ us) =
      ((monitorLoop N T st ts).1 ++ (monitorLoop N T st' us).1, (monitorLoop N T st' us).2) := by
  induction ts generalizing st with
  | nil =>
    simp only [monitorLoop, Next.loop.injEq] at h
    rw [h]
    rfl
  | cons t ts ih =>
    rcases hstep : monitorTick N T st t with ⟨evs, nx⟩
    cases nx with
    | ret o =>
      rw [monitorLoop_cons_ret N T st t ts evs o hstep] at h
      simp at h
    | loop st1 =>
      rw [monitorLoop_cons_loop N T st st1 t ts evs hstep] at h
      rw [List.cons_append, monitorLoop_cons_loop N T st st1 t (ts ++ us) evs hstep,
        monitorLoop_cons_loop N T st st1 t ts evs hstep, ih st1 h]
      rfl

theorem report_any_progress (shown hasPaper : Bool) (prev : Int) (s : PrinterStatus)
    (since : Int) :
    (paperReport shown hasPaper ++ progressReport prev s since).any Event.isProgress = true ↔
      s.JobsInQueue ≠ prev := by
  unfold paperReport progressReport
  cases shown <;> cases hasPaper <;> by_cases hj : s.JobsInQueue = prev <;>
    simp [hj, Event.isProgress]

theorem report_count_paperOut (shown hasPaper : Bool) (prev : Int) (s : PrinterStatus)
    (since : Int) :
    (paperReport shown hasPaper ++ progressReport prev s since).count Event.paperOut =
      if hasPaper = false ∧ shown = false then 1 else 0 := by
  unfold paperReport progressReport
  cases shown <;> cases hasPaper <;> by_cases hj : s.JobsInQueue = prev <;>
    simp [hj, List.count_cons]

theorem report_count_paperRestored (shown hasPaper : Bool) (prev : Int) (s : PrinterStatus)
    (since : Int) :
    (paperReport shown hasPaper ++ progressReport prev s since).count Event.paperRestored =
      if hasPaper = true ∧ shown = true then 1 else 0 := by
  unfold paperReport progressReport
  cases shown <;> cases hasPaper <;> by_cases hj : s.JobsInQueue = prev <;>
    simp [hj, List.count_cons]

/-- Progress at tick `i` of a run over surviving ticks: the depth differs from
the one remembered, which is the previous tick's depth, or the entry value of
`previousJobs` at the first tick. -/
theorem loop_progress_at (N : Str) (T : Int) (ticks : List Tick) (st : MonitorState)
    (h : ∀ t ∈ ticks, Tick.continuing N T t) (i : Nat) (hi : i < ticks.length) :
    (((monitorLoop N T st ticks).1.getD i []).any Event.isProgress = true ↔
      (ticks.map (Tick.depth? N))[i]? ≠
        (some st.previousJobs :: ticks.map (Tick.depth? N))[i]?) := by
  induction ticks generalizing st i with
  | nil => simp at hi
  | cons t ts ih =>
    obtain ⟨s, hpoll, hd, he, hto⟩ := h t (List.mem_cons_self _ _)
    have hdepth : Tick.depth? N t = some s.JobsInQueue := by unfold Tick.depth?; rw [hpoll]
    rw [monitorLoop_cons_continuing N T st t ts s hpoll hd he hto]
    cases i with
    | zero =>
      simp only [List.getD_cons_zero, List.map_cons, List.getElem?_cons_zero, hdepth]
      rw [report_any_progress]
      simp
    | succ j =>
      simp only [List.getD_cons_succ, List.map_cons, List.getElem?_cons_succ, hdepth]
      exact ih { previousJobs := s.JobsInQueue, paperWarningShown := !s.HasPaper }
        (fun x hx => h x (List.mem_cons_of_mem _ hx)) j (by simpa using hi)

/-- Paper reports at tick `i` of a run over surviving ticks, against the
has-paper value of the tick before (at the first tick: the negation of the
entry value of the flag). -/
theorem loop_paper_at (N : Str) (T : Int) (ticks : List Tick) (st : MonitorState)
    (h : ∀ t ∈ ticks, Tick.continuing N T t) (i : Nat) (hi : i < ticks.length) :
    ((monitorLoop N T st ticks).1.getD i []).count Event.paperOut =
        (if (ticks.map (Tick.hasPaper? N))[i]? = some (some false) ∧
            (some (!st.paperWarningShown) :: ticks.map (Tick.hasPaper? N))[i]? = some (some true)
          then 1 else 0) ∧
      ((monitorLoop N T st ticks).1.getD i []).count Event.paperRestored =
        (if (ticks.map (Tick.hasPaper? N))[i]? = some (some true) ∧
            (some (!st.paperWarningShown) :: ticks.map (Tick.hasPaper? N))[i]? = some (some false)
          then 1 else 0) := by
  induction ticks generalizing st i with
  | nil => simp at hi
  | cons t ts ih =>
    obtain ⟨s, hpoll, hd, he, hto⟩ := h t (List.mem_cons_self _ _)
    have hpaper : Tick.hasPaper? N t = some s.HasPaper := by unfold Tick.hasPaper?; rw [hpoll]
    rw [monitorLoop_cons_continuing N T st t ts s hpoll hd he hto]
    cases i with
    | zero =>
      simp only [List.getD_cons_zero, List.map_cons, List.getElem?_cons_zero, hpaper]
      rw [report_count_paperOut, report_count_paperRestored]
      cases s.HasPaper <;> cases st.paperWarningShown <;> simp
    | succ j =>
      simp only [List.getD_cons_succ, List.map_cons, List.getElem?_cons_succ, hpaper]
      have := ih { previousJobs := s.JobsInQueue, paperWarningShown := !s.HasPaper }
        (fun x hx => h x (List.mem_cons_of_mem _ hx)) j (by simpa using hi)
      simpa using this

theorem falseRuns_true_cons (l : List Bool) : falseRuns (true :: l) = falseRuns l := by
  cases l with
  | nil => rfl
  | cons c rest => simp [falseRuns]

theorem falseRuns_false_false_cons (l : List Bool) :
    falseRuns (false :: false :: l) = falseRuns (false :: l) := by
  simp [falseRuns]

theorem falseRuns_false_true_cons (l : List Bool) :
    falseRuns (false :: true :: l) = 1 + falseRuns l := by
  rw [falseRuns, falseRuns_true_cons]
  simp

/-- Paper-out warnings of a run over surviving ticks, counted against the runs
of `false` among the has-paper values: from a clear flag they are the runs;
from a set flag the run in progress is not warned about again. -/
theorem loop_paperOut_count (N : Str) (T : Int) (ticks : List Tick) (st : MonitorState)
    (h : ∀ t ∈ ticks, Tick.continuing N T t) :
    (st.paperWarningShown = false →
      ((monitorLoop N T st ticks).1.map (List.count Event.paperOut)).sum =
        falseRuns (ticks.filterMap (Tick.hasPaper? N))) ∧
    (st.paperWarningShown = true →
      ((monitorLoop N T st ticks).1.map (List.count Event.paperOut)).sum + 1 =
        falseRuns (false :: ticks.filterMap (Tick.hasPaper? N))) := by
  induction ticks generalizing st with
  | nil =>
    constructor
    · intro _; rfl
    · intro _; rfl
  | cons t ts ih =>
    obtain ⟨s, hpoll, hd, he, hto⟩ := h t (List.mem_cons_self _ _)
    have hpaper : Tick.hasPaper? N t = some s.HasPaper := by unfold Tick.hasPaper?; rw [hpoll]
    rw [monitorLoop_cons_continuing N T st t ts s hpoll hd he hto]
    obtain ⟨ih0, ih1⟩ := ih { previousJobs := s.JobsInQueue, paperWarningShown := !s.HasPaper }
      (fun x hx => h x (List.mem_cons_of_mem _ hx))
    simp only [List.map_cons, List.sum_cons, report_count_paperOut,
      List.filterMap_cons, hpaper]
    cases hp : s.HasPaper
    · rw [hp] at ih0 ih1
      have ih1' := ih1 rfl
      constructor
      · intro hs
        rw [hs]
        simp only [and_self, if_true]
        omega
      · intro hs
        rw [hs, falseRuns_false_false_cons]
        simp only [Bool.true_eq_false, and_false, if_false]
        omega
    · rw [hp] at ih0 ih1
      have ih0' := ih0 rfl
      constructor
      · intro hs
        rw [falseRuns_true_cons]
        simp only [Bool.true_eq_false, false_and, if_false]
        omega
      · intro hs
        rw [falseRuns_false_true_cons]
        simp only [Bool.true_eq_false, false_and, if_false]
        omega

theorem timedOut_of_nonpos (T since : Int) (h : T ≤ 0) : timedOut T since = false := by
  unfold timedOut
  have : ¬ T > 0 := by omega
  simp [this]

/-- Below the wrap of the 64-bit product the timeout test is the comparison in
seconds. -/
theorem timedOut_iff_of_small (T since : Int) (h0 : 0 < T) (h1 : T ≤ 9223372036) :
    timedOut T since = true ↔ since > T * 1000000000 := by
  unfold timedOut timeoutDuration wrapInt64
  have hmod : (T * 1000000000 + 2 ^ 63) % 2 ^ 64 = T * 1000000000 + 2 ^ 63 := by
    apply Int.emod_eq_of_lt <;> omega
  rw [hmod]
  simp only [Bool.and_eq_true, decide_eq_true_eq]
  constructor
  · rintro ⟨_, h⟩; omega
  · intro h; exact ⟨h0, by omega⟩

/-- With a timeout of 0 or less no tick ends in TimedOut. -/
theorem monitorTick_never_timedOut (N : Str) (T : Int) (hT : T ≤ 0) (st : MonitorState) (t : Tick) :
    (monitorTick N T st t).2 ≠ Next.ret Outcome.TimedOut := by
  unfold monitorTick
  rw [timedOut_of_nonpos T _ hT]
  cases getPrinterStatus N t.cmd with
  | error e => simp
  | ok s =>
    by_cases hd : s.JobsInQueue = 0
    · simp [hd]
    · cases he : s.HasError <;> simp [hd, he]

/-- With a timeout of 0 or less no run ends in TimedOut, whatever the ticks. -/
theorem monitorLoop_never_timedOut (N : Str) (T : Int) (hT : T ≤ 0) (ticks : List Tick)
    (st : MonitorState) : (monitorLoop N T st ticks).2 ≠ Next.ret Outcome.TimedOut := by
  induction ticks generalizing st with
  | nil => simp [monitorLoop]
  | cons t ts ih =>
    rcases hstep : monitorTick N T st t with ⟨evs, nx⟩
    cases nx with
    | ret o =>
      rw [monitorLoop_cons_ret N T st t ts evs o hstep]
      have := monitorTick_never_timedOut N T hT st t
      rw [hstep] at this
      exact this
    | loop st1 =>
      rw [monitorLoop_cons_loop N T st st1 t ts evs hstep]
      exact ih st1

/-- A tick past the completion and error checks ends in TimedOut exactly when
the timeout test holds. -/
theorem monitorTick_timedOut_iff (N : Str) (T : Int) (st : MonitorState) (t : Tick) (s : PrinterStatus)
    (hpoll : getPrinterStatus N t.cmd = .ok s) (hd : s.JobsInQueue ≠ 0) (he : s.HasError = false) :
    (monitorTick N T st t).2 = Next.ret Outcome.TimedOut ↔ timedOut T t.sinceTimeout = true := by
  unfold monitorTick
  rw [hpoll]
  cases hto : timedOut T t.sinceTimeout <;> simp [hd, he]

/-! ## Job monitor: C1, C2, C3, C4 -/

/-- C1: over successfully polled snapshots with has-error false, positive queue
depths and no timeout, the monitor is still running after the last tick, has
reported once per tick, and reports progress at a tick if and only if it is the
first tick or its queue depth differs from the previous tick's; a following
tick with depth 0 reports completion only and ends the run as Completed.
Depths 5, 5, 3, 0 give progress at 5, nothing, progress at 3, then Completed. -/
theorem C1_progress_on_depth_change (printerName : Str) (T : Int) (ticks : List Tick)
    (h : ∀ t ∈ ticks, ∃ s, getPrinterStatus printerName t.cmd = .ok s ∧ s.HasError = false ∧
      0 < s.JobsInQueue ∧ timedOut T t.sinceTimeout = false) :
    (∃ st, (monitorPrintJob printerName T ticks).2 = Next.loop st) ∧
    (monitorPrintJob printerName T ticks).1.length = ticks.length ∧
    (∀ i, i < ticks.length →
      ((((monitorPrintJob printerName T ticks).1.getD i []).any Event.isProgress = true) ↔
        (i = 0 ∨ (ticks.map (Tick.depth? printerName))[i]? ≠
          (ticks.map (Tick.depth? printerName))[i - 1]?))) ∧
    (∀ t0 s0, getPrinterStatus printerName t0.cmd = .ok s0 → s0.JobsInQueue = 0 →
      monitorPrintJob printerName T (ticks ++ [t0]) =
        ((monitorPrintJob printerName T ticks).1 ++ [[Event.completed]],
          Next.ret Outcome.Completed)) ∧
    monitorPrintJob printerName 0
        [tickAt "STATUS:0\nJOBS:5\n" 2000000000, tickAt "STATUS:0\nJOBS:5\n" 4000000000,
          tickAt "STATUS:0\nJOBS:3\n" 6000000000, tickAt "STATUS:0\nJOBS:0\n" 8000000000] =
      ([[Event.progress 5 "Ready".toList 2000000000], [],
          [Event.progress 3 "Ready".toList 6000000000], [Event.completed]],
        Next.ret Outcome.Completed) := by
  have hc : ∀ t ∈ ticks, Tick.continuing printerName T t := by
    intro t ht
    obtain ⟨s, hpoll, he, hd, hto⟩ := h t ht
    exact ⟨s, hpoll, by omega, he, hto⟩
  obtain ⟨⟨st, hst⟩, hlen⟩ := monitorLoop_continuing printerName T ticks initialState hc
  unfold monitorPrintJob
  refine ⟨⟨st, hst⟩, hlen, ?_, ?_, by rfl⟩
  · intro i hi
    rw [loop_progress_at printerName T ticks initialState hc i hi]
    cases i with
    | zero =>
      cases ticks with
      | nil => simp at hi
      | cons t ts =>
        obtain ⟨s, hpoll, _, hd, _⟩ := h t (List.mem_cons_self _ _)
        have hdepth : Tick.depth? printerName t = some s.JobsInQueue := by
          unfold Tick.depth?; rw [hpoll]
        simp only [List.map_cons, List.getElem?_cons_zero, hdepth, initialState, true_or,
          iff_true, ne_eq, Option.some.injEq]
        omega
    | succ j => simp
  · intro t0 s0 hpoll0 hd0
    rw [monitorLoop_append printerName T ticks [t0] initialState st hst,
      monitorLoop_cons_ret printerName T st t0 [] _ _
        (monitorTick_empty_queue printerName T st t0 s0 hpoll0 hd0)]

/-- Witness for C1 at the depths 5, 5, 3 with the timeout off. -/
theorem C1_progress_on_depth_change_witness :
    (monitorPrintJob "MP230".toList 0 [tickAt "STATUS:0\nJOBS:5\n" 2,
        tickAt "STATUS:0\nJOBS:5\n" 4, tickAt "STATUS:0\nJOBS:3\n" 6]).1.length = 3 ∧
    monitorPrintJob "MP230".toList 0 ([tickAt "STATUS:0\nJOBS:5\n" 2,
        tickAt "STATUS:0\nJOBS:5\n" 4, tickAt "STATUS:0\nJOBS:3\n" 6] ++
          [tickAt "STATUS:0\nJOBS:0\n" 8]) =
      ((monitorPrintJob "MP230".toList 0 [tickAt "STATUS:0\nJOBS:5\n" 2,
        tickAt "STATUS:0\nJOBS:5\n" 4, tickAt "STATUS:0\nJOBS:3\n" 6]).1 ++
          [[Event.completed]], Next.ret Outcome.Completed) :=
  have hw := C1_progress_on_depth_change "MP230".toList 0
    [tickAt "STATUS:0\nJOBS:5\n" 2, tickAt "STATUS:0\nJOBS:5\n" 4,
      tickAt "STATUS:0\nJOBS:3\n" 6] (by
      intro t ht
      simp only [List.mem_cons, List.mem_singleton, List.not_mem_nil, or_false] at ht
      rcases ht with rfl | rfl | rfl <;> exact ⟨_, rfl, by decide⟩)
  ⟨hw.2.1, hw.2.2.2.1 (tickAt "STATUS:0\nJOBS:0\n" 8) _ rfl rfl⟩

/-- C2: over continuing ticks (queue depth not 0, has-error false, timeout test
false) the number of paper-out warnings reported equals the number of maximal
runs of consecutive has-paper=false snapshots; the warning is reported exactly
at the first tick of each such run, once, and the paper-restored notice
exactly at each has-paper=true tick that comes right after such a run, once.
So has-paper false, false, true gives one warning at the first tick, nothing
at the second and one restored notice at the third. -/
theorem C2_paper_out_debounce (printerName : Str) (T : Int) (ticks : List Tick)
    (h : ∀ t ∈ ticks, Tick.continuing printerName T t) :
    ((monitorPrintJob printerName T ticks).1.map (List.count Event.paperOut)).sum =
      falseRuns (ticks.filterMap (Tick.hasPaper? printerName)) ∧
    (∀ i, i < ticks.length →
      ((monitorPrintJob printerName T ticks).1.getD i []).count Event.paperOut =
        if (ticks.map (Tick.hasPaper? printerName))[i]? = some (some false) ∧
            (i = 0 ∨ (ticks.map (Tick.hasPaper? printerName))[i - 1]? = some (some true))
          then 1 else 0) ∧
    (∀ i, i < ticks.length →
      ((monitorPrintJob printerName T ticks).1.getD i []).count Event.paperRestored =
        if (ticks.map (Tick.hasPaper? printerName))[i]? = some (some true) ∧
            (0 < i ∧ (ticks.map (Tick.hasPaper? printerName))[i - 1]? = some (some false))
          then 1 else 0) ∧
    monitorPrintJob printerName 0
        [tickAt "STATUS:PaperOut\nJOBS:2\n" 2000000000,
          tickAt "STATUS:PaperOut\nJOBS:2\n" 4000000000,
          tickAt "STATUS:0\nJOBS:2\n" 6000000000] =
      ([[Event.paperOut, Event.progress 2 "Paper Problem".toList 2000000000], [],
          [Event.paperRestored]],
        Next.loop { previousJobs := 2, paperWarningShown := false }) := by
  unfold monitorPrintJob
  refine ⟨(loop_paperOut_count printerName T ticks initialState h).1 rfl, ?_, ?_, by rfl⟩
  · intro i hi
    rw [(loop_paper_at printerName T ticks initialState h i hi).1]
    cases i with
    | zero => simp [initialState]
    | succ j => simp
  · intro i hi
    rw [(loop_paper_at printerName T ticks initialState h i hi).2]
    cases i with
    | zero => simp [initialState]
    | succ j => simp

/-- Witness for C2 at has-paper false, false, true with the timeout off. -/
theorem C2_paper_out_debounce_witness :
    ((monitorPrintJob "MP230".toList 0 [tickAt "STATUS:PaperOut\nJOBS:2\n" 2,
        tickAt "STATUS:PaperOut\nJOBS:2\n" 4,
        tickAt "STATUS:0\nJOBS:2\n" 6]).1.map (List.count Event.paperOut)).sum =
      falseRuns ([tickAt "STATUS:PaperOut\nJOBS:2\n" 2, tickAt "STATUS:PaperOut\nJOBS:2\n" 4,
        tickAt "STATUS:0\nJOBS:2\n" 6].filterMap (Tick.hasPaper? "MP230".toList)) ∧
    falseRuns ([tickAt "STATUS:PaperOut\nJOBS:2\n" 2, tickAt "STATUS:PaperOut\nJOBS:2\n" 4,
        tickAt "STATUS:0\nJOBS:2\n" 6].filterMap (Tick.hasPaper? "MP230".toList)) = 1 :=
  ⟨(C2_paper_out_debounce "MP230".toList 0
      [tickAt "STATUS:PaperOut\nJOBS:2\n" 2, tickAt "STATUS:PaperOut\nJOBS:2\n" 4,
        tickAt "STATUS:0\nJOBS:2\n" 6] (by
        intro t ht
        simp only [List.mem_cons, List.mem_singleton, List.not_mem_nil, or_false] at ht
        rcases ht with rfl | rfl | rfl <;> exact ⟨_, rfl, by decide⟩)).1,
    by rfl⟩

/-- C3, as stated, fails at queue depth 0: the output "STATUS:Error", "JOBS:0"
polls a snapshot with has-error true and depth 0, and the tick that receives
it reports completion and ends as Completed, not Failed. -/
theorem C3_counterexample :
    getPrinterStatus "MP230".toList (some "STATUS:Error\nJOBS:0\n".toList) =
      .ok { Name := "MP230".toList, Status := "Error".toList, JobsInQueue := 0,
            IsReady := false, HasPaper := true, HasError := true, ErrorMsg := [] } ∧
    monitorTick "MP230".toList 0 initialState (tickAt "STATUS:Error\nJOBS:0\n" 2000000000) =
      ([Event.completed], Next.ret Outcome.Completed) ∧
    (monitorTick "MP230".toList 0 initialState (tickAt "STATUS:Error\nJOBS:0\n" 2000000000)).2 ≠
      Next.ret Outcome.Failed := by
  refine ⟨by rfl, by rfl, by decide⟩

/-- C3 amended: a tick that polls a snapshot with has-error true and a queue
depth other than 0 stops the monitor in Failed, the printer-error report being
its last report, whatever the paper state, the timeout and the locals; with
queue depth 0 the tick ends as Completed, the completion check coming first. -/
theorem C3_error_stops_unless_empty_queue (printerName : Str) (T : Int) (st : MonitorState)
    (t : Tick) (s : PrinterStatus) (hpoll : getPrinterStatus printerName t.cmd = .ok s)
    (he : s.HasError = true) :
    (s.JobsInQueue ≠ 0 →
      (monitorTick printerName T st t).2 = Next.ret Outcome.Failed ∧
        (monitorTick printerName T st t).1.getLast? = some (Event.printerError s.ErrorMsg)) ∧
    (s.JobsInQueue = 0 →
      monitorTick printerName T st t = ([Event.completed], Next.ret Outcome.Completed)) := by
  constructor
  · intro hd
    unfold monitorTick
    rw [hpoll]
    simp [hd, he]
  · intro hd
    exact monitorTick_empty_queue printerName T st t s hpoll hd

/-- Witness for the amended C3 at a snapshot with has-error true, no paper and
depth 3, and at one with has-error true and depth 0. -/
theorem C3_error_stops_unless_empty_queue_witness :
    (monitorTick "MP230".toList 0 initialState (tickAt "STATUS:Paper Error\nJOBS:3\n" 2)).2 =
      Next.ret Outcome.Failed ∧
    monitorTick "MP230".toList 0 initialState (tickAt "STATUS:Error\nJOBS:0\n" 2) =
      ([Event.completed], Next.ret Outcome.Completed) :=
  ⟨((C3_error_stops_unless_empty_queue "MP230".toList 0 initialState
      (tickAt "STATUS:Paper Error\nJOBS:3\n" 2) _ rfl rfl).1 (by decide)).1,
    (C3_error_stops_unless_empty_queue "MP230".toList 0 initialState
      (tickAt "STATUS:Error\nJOBS:0\n" 2) _ rfl rfl).2 rfl⟩

/-- C4, as stated, fails: with the positive timeout 9223372037 seconds the
64-bit product `time.Duration(timeoutSec)*time.Second` wraps to a negative
duration, and a still-running job polled 2 seconds after the start, far below
the timeout, is ended as TimedOut. -/
theorem C4_counterexample :
    (0 : Int) < 9223372037 ∧
    timeoutDuration 9223372037 = -9223372036709551616 ∧
    ¬ ((2000000000 : Int) > 9223372037 * 1000000000) ∧
    monitorTick "MP230".toList 9223372037 initialState
        (tickAt "STATUS:0\nJOBS:1\n" 2000000000) =
      ([Event.progress 1 "Ready".toList 2000000000, Event.timeout 9223372037],
        Next.ret Outcome.TimedOut) := by
  refine ⟨by decide, by decide, by decide, by rfl⟩

/-- Up to 9223372036 seconds the timeout behaves as specified: a tick past the
completion and error checks ends in TimedOut exactly when the elapsed time is
strictly greater than the timeout. -/
theorem monitorTick_timedOut_iff_of_small (printerName : Str) (T : Int) (h0 : 0 < T)
    (h1 : T ≤ 9223372036) (st : MonitorState) (t : Tick) (s : PrinterStatus)
    (hpoll : getPrinterStatus printerName t.cmd = .ok s)
    (hd : s.JobsInQueue ≠ 0) (he : s.HasError = false) :
    (monitorTick printerName T st t).2 = Next.ret Outcome.TimedOut ↔
      t.sinceTimeout > T * 1000000000 := by
  rw [monitorTick_timedOut_iff printerName T st t s hpoll hd he,
    timedOut_iff_of_small T _ h0 h1]

/-- With a timeout of 5 seconds and ticks at 2, 4 and 6 seconds a still-running
job goes on at the first two ticks and is timed out at the third. -/
theorem monitor_timeout_five_seconds :
    monitorPrintJob "MP230".toList 5
        [tickAt "STATUS:0\nJOBS:1\n" 2000000000, tickAt "STATUS:0\nJOBS:1\n" 4000000000,
          tickAt "STATUS:0\nJOBS:1\n" 6000000000, tickAt "STATUS:0\nJOBS:1\n" 8000000000] =
      ([[Event.progress 1 "Ready".toList 2000000000], [], [Event.timeout 5]],
        Next.ret Outcome.TimedOut) := by
  rfl

/-- C4 amended: with a timeout of 0 or less no run ends in TimedOut, whatever
the ticks and the elapsed times; with a positive timeout of at most 9223372036
seconds, the largest that `time.Duration` holds, a tick that passes the
completion and error checks ends in TimedOut if and only if the elapsed time
at that tick is strictly greater than the timeout, and goes round the loop
again otherwise; with 5 seconds and ticks at 2, 4 and 6 seconds a still-running
job goes on at the first two ticks and is timed out at the third. -/
theorem C4_timeout_within_duration (printerName : Str) (T : Int) :
    (T ≤ 0 → ∀ ticks, (monitorPrintJob printerName T ticks).2 ≠ Next.ret Outcome.TimedOut) ∧
    (0 < T → T ≤ 9223372036 →
      ∀ (st : MonitorState) (t : Tick) (s : PrinterStatus),
        getPrinterStatus printerName t.cmd = .ok s → s.JobsInQueue ≠ 0 →
        s.HasError = false →
        ((monitorTick printerName T st t).2 = Next.ret Outcome.TimedOut ↔
          t.sinceTimeout > T * 1000000000) ∧
        (¬ t.sinceTimeout > T * 1000000000 →
          (monitorTick printerName T st t).2 =
            Next.loop { previousJobs := s.JobsInQueue, paperWarningShown := !s.HasPaper })) ∧
    monitorPrintJob printerName 5
        [tickAt "STATUS:0\nJOBS:1\n" 2000000000, tickAt "STATUS:0\nJOBS:1\n" 4000000000,
          tickAt "STATUS:0\nJOBS:1\n" 6000000000, tickAt "STATUS:0\nJOBS:1\n" 8000000000] =
      ([[Event.progress 1 "Ready".toList 2000000000], [], [Event.timeout 5]],
        Next.ret Outcome.TimedOut) := by
  refine ⟨?_, ?_, by rfl⟩
  · intro hT ticks
    exact monitorLoop_never_timedOut printerName T hT ticks initialState
  · intro h0 h1 st t s hpoll hd he
    refine ⟨monitorTick_timedOut_iff_of_small printerName T h0 h1 st t s hpoll hd he, ?_⟩
    intro hnot
    have hto : timedOut T t.sinceTimeout = false := by
      cases hto : timedOut T t.sinceTimeout
      · rfl
      · exact absurd ((timedOut_iff_of_small T _ h0 h1).mp hto) hnot
    rw [monitorTick_continuing printerName T st t s hpoll hd he hto]

/-- Witness for the amended C4 at the timeouts 0 and 5 seconds. -/
theorem C4_timeout_within_duration_witness :
    (monitorPrintJob "MP230".toList 0
        [tickAt "STATUS:0\nJOBS:1\n" 2000000000, tickAt "STATUS:0\nJOBS:1\n" 4000000000]).2 ≠
      Next.ret Outcome.TimedOut ∧
    ((monitorTick "MP230".toList 5 initialState (tickAt "STATUS:0\nJOBS:1\n" 6000000000)).2 =
        Next.ret Outcome.TimedOut ↔
      (tickAt "STATUS:0\nJOBS:1\n" 6000000000).sinceTimeout > 5 * 1000000000) :=
  ⟨(C4_timeout_within_duration "MP230".toList 0).1 (by decide) _,
    ((C4_timeout_within_duration "MP230".toList 5).2.1 (by decide) (by decide) initialState
      (tickAt "STATUS:0\nJOBS:1\n" 6000000000) _ rfl (by decide) rfl).1⟩

/-! ## Command builder: C12, C13, C14 -/

/-- The argument list in one piece. -/
theorem buildGSArgs_eq (printerName pdfPath : Str) (settings : PrintSettings) :
    buildGSArgs printerName pdfPath settings =
      fixedFlags ++ ["-dNumCopies=".toList ++ formatInt settings.Copies] ++
        [paperFlag settings.PaperSize] ++
        (if settings.Color = "monochrome".toList then greyFlags else []) ++
        duplexFlags settings.DoubleSided settings.DuplexMode ++
        ["-sDEVICE=mswinpr2".toList, "-sOutputFile=%printer%".toList ++ printerName, pdfPath] := by
  unfold buildGSArgs fixedFlags paperFlag greyFlags duplexFlags knownSizes
  split_ifs <;> simp_all

/-- The part of the argument list that the builder itself emits, before the
caller-supplied document path. -/
theorem buildGSArgs_dropLast (printerName pdfPath : Str) (settings : PrintSettings) :
    (buildGSArgs printerName pdfPath settings).dropLast =
      fixedFlags ++ ["-dNumCopies=".toList ++ formatInt settings.Copies] ++
        [paperFlag settings.PaperSize] ++
        (if settings.Color = "monochrome".toList then greyFlags else []) ++
        duplexFlags settings.DoubleSided settings.DuplexMode ++
        ["-sDEVICE=mswinpr2".toList, "-sOutputFile=%printer%".toList ++ printerName] := by
  rw [buildGSArgs_eq]
  have : ∀ (xs : List Str) (a b c : Str), (xs ++ [a, b, c]).dropLast = xs ++ [a, b] := by
    intro xs a b c
    have h : xs ++ [a, b, c] = (xs ++ [a, b]) ++ [c] := by simp
    rw [h, List.dropLast_concat]
  rw [this]

theorem paperFlag_mem (size : Str) :
    paperFlag size ∈ ["-sPAPERSIZE=a4".toList, "-sPAPERSIZE=letter".toList,
      "-sPAPERSIZE=legal".toList, "-sPAPERSIZE=a5".toList] := by
  unfold paperFlag knownSizes
  split_ifs with h
  · simp only [List.mem_cons, List.mem_singleton, List.not_mem_nil, or_false] at h
    rcases h with h | h | h | h <;> rw [h] <;> decide
  · decide

/-- No tumble flag among what the builder emits besides the duplex flags. -/
theorem tumble_not_elsewhere (printerName : Str) (settings : PrintSettings) (f : Str)
    (hf : f = "-dTumble=true".toList ∨ f = "-dTumble=false".toList ∨ f = "-dDuplex=true".toList ∨
      f = "-dDuplex=false".toList)
    (duplex : List Str) :
    f ∈ fixedFlags ++ ["-dNumCopies=".toList ++ formatInt settings.Copies] ++
        [paperFlag settings.PaperSize] ++
        (if settings.Color = "monochrome".toList then greyFlags else []) ++
        duplex ++
        ["-sDEVICE=mswinpr2".toList, "-sOutputFile=%printer%".toList ++ printerName] ↔
      f ∈ duplex := by
  have hp := paperFlag_mem settings.PaperSize
  generalize paperFlag settings.PaperSize = paper at hp
  simp only [List.mem_cons, List.mem_singleton, List.not_mem_nil, or_false] at hp
  unfold fixedFlags greyFlags
  rcases hf with rfl | rfl | rfl | rfl <;> rcases hp with rfl | rfl | rfl | rfl <;>
    split_ifs <;> simp

/-- C13: with duplex off the builder emits "-dDuplex=false" and no tumble flag
before the document path; with duplex on and the mode "horizontal" it emits
"-dDuplex=true" immediately followed by "-dTumble=true"; with duplex on and any
other mode it emits "-dDuplex=true" immediately followed by "-dTumble=false". -/
theorem C13_duplex_flags (printerName pdfPath : Str) (settings : PrintSettings) :
    (settings.DoubleSided = false →
      "-dDuplex=false".toList ∈ (buildGSArgs printerName pdfPath settings).dropLast ∧
      "-dDuplex=true".toList ∉ (buildGSArgs printerName pdfPath settings).dropLast ∧
      "-dTumble=true".toList ∉ (buildGSArgs printerName pdfPath settings).dropLast ∧
      "-dTumble=false".toList ∉ (buildGSArgs printerName pdfPath settings).dropLast) ∧
    (settings.DoubleSided = true → settings.DuplexMode = "horizontal".toList →
      (∃ pre post, buildGSArgs printerName pdfPath settings =
        pre ++ ["-dDuplex=true".toList, "-dTumble=true".toList] ++ post) ∧
      "-dTumble=false".toList ∉ (buildGSArgs printerName pdfPath settings).dropLast ∧
      "-dDuplex=false".toList ∉ (buildGSArgs printerName pdfPath settings).dropLast) ∧
    (settings.DoubleSided = true → settings.DuplexMode ≠ "horizontal".toList →
      (∃ pre post, buildGSArgs printerName pdfPath settings =
        pre ++ ["-dDuplex=true".toList, "-dTumble=false".toList] ++ post) ∧
      "-dTumble=true".toList ∉ (buildGSArgs printerName pdfPath settings).dropLast ∧
      "-dDuplex=false".toList ∉ (buildGSArgs printerName pdfPath settings).dropLast) := by
  refine ⟨?_, ?_, ?_⟩
  · intro hd
    rw [buildGSArgs_dropLast,
      tumble_not_elsewhere printerName settings _ (Or.inr (Or.inr (Or.inr rfl))),
      tumble_not_elsewhere printerName settings _ (Or.inr (Or.inr (Or.inl rfl))),
      tumble_not_elsewhere printerName settings _ (Or.inl rfl),
      tumble_not_elsewhere printerName settings _ (Or.inr (Or.inl rfl))]
    unfold duplexFlags
    rw [hd, if_neg (by decide)]
    decide
  · intro hd hm
    refine ⟨⟨fixedFlags ++ ["-dNumCopies=".toList ++ formatInt settings.Copies] ++
        [paperFlag settings.PaperSize] ++
        (if settings.Color = "monochrome".toList then greyFlags else []),
      ["-sDEVICE=mswinpr2".toList, "-sOutputFile=%printer%".toList ++ printerName, pdfPath],
      ?_⟩, ?_⟩
    · rw [buildGSArgs_eq]
      unfold duplexFlags
      rw [hd, if_pos rfl, if_pos hm]
    · rw [buildGSArgs_dropLast,
        tumble_not_elsewhere printerName settings _ (Or.inr (Or.inl rfl)),
        tumble_not_elsewhere printerName settings _ (Or.inr (Or.inr (Or.inr rfl)))]
      unfold duplexFlags
      rw [hd, if_pos rfl, if_pos hm]
      decide
  · intro hd hm
    refine ⟨⟨fixedFlags ++ ["-dNumCopies=".toList ++ formatInt settings.Copies] ++
        [paperFlag settings.PaperSize] ++
        (if settings.Color = "monochrome".toList then greyFlags else []),
      ["-sDEVICE=mswinpr2".toList, "-sOutputFile=%printer%".toList ++ printerName, pdfPath],
      ?_⟩, ?_⟩
    · rw [buildGSArgs_eq]
      unfold duplexFlags
      rw [hd, if_pos rfl, if_neg hm]
    · rw [buildGSArgs_dropLast,
        tumble_not_elsewhere printerName settings _ (Or.inl rfl),
        tumble_not_elsewhere printerName settings _ (Or.inr (Or.inr (Or.inr rfl)))]
      unfold duplexFlags
      rw [hd, if_pos rfl, if_neg hm]
      decide

/-- Witness for C13 at duplex off, duplex on with "horizontal" and duplex on
with "vertical". -/
theorem C13_duplex_flags_witness :
    "-dTumble=true".toList ∉ (buildGSArgs "MP230".toList "C:\\docs\\test.pdf".toList
        { PaperSize := "a4".toList, Color := "color".toList, DoubleSided := false,
          DuplexMode := "horizontal".toList, Copies := 1 }).dropLast ∧
    (∃ pre post, buildGSArgs "MP230".toList "C:\\docs\\test.pdf".toList
        { PaperSize := "a4".toList, Color := "color".toList, DoubleSided := true,
          DuplexMode := "horizontal".toList, Copies := 1 } =
      pre ++ ["-dDuplex=true".toList, "-dTumble=true".toList] ++ post) ∧
    (∃ pre post, buildGSArgs "MP230".toList "C:\\docs\\test.pdf".toList
        { PaperSize := "a4".toList, Color := "color".toList, DoubleSided := true,
          DuplexMode := "vertical".toList, Copies := 1 } =
      pre ++ ["-dDuplex=true".toList, "-dTumble=false".toList] ++ post) :=
  ⟨((C13_duplex_flags "MP230".toList "C:\\docs\\test.pdf".toList
      { PaperSize := "a4".toList, Color := "color".toList, DoubleSided := false,
        DuplexMode := "horizontal".toList, Copies := 1 }).1 rfl).2.2.1,
    ((C13_duplex_flags "MP230".toList "C:\\docs\\test.pdf".toList
      { PaperSize := "a4".toList, Color := "color".toList, DoubleSided := true,
        DuplexMode := "horizontal".toList, Copies := 1 }).2.1 rfl rfl).1,
    ((C13_duplex_flags "MP230".toList "C:\\docs\\test.pdf".toList
      { PaperSize := "a4".toList, Color := "color".toList, DoubleSided := true,
        DuplexMode := "vertical".toList, Copies := 1 }).2.2 rfl (by decide)).1⟩

/-- The seventh argument is the paper-size flag. -/
theorem buildGSArgs_seventh (printerName pdfPath : Str) (settings : PrintSettings) :
    (buildGSArgs printerName pdfPath settings)[6]? = some (paperFlag settings.PaperSize) := by
  rw [buildGSArgs_eq]
  unfold fixedFlags
  simp

/-- C14: the sizes "a4", "letter", "legal" and "a5" emit their own paper-size
flag, and every other size string, the empty one included, emits the A4 flag;
the flag is the seventh argument, and the builder returns a list in every
case. -/
theorem C14_paper_size (printerName pdfPath : Str) (settings : PrintSettings) :
    (settings.PaperSize = "a4".toList →
      (buildGSArgs printerName pdfPath settings)[6]? = some "-sPAPERSIZE=a4".toList) ∧
    (settings.PaperSize = "letter".toList →
      (buildGSArgs printerName pdfPath settings)[6]? = some "-sPAPERSIZE=letter".toList) ∧
    (settings.PaperSize = "legal".toList →
      (buildGSArgs printerName pdfPath settings)[6]? = some "-sPAPERSIZE=legal".toList) ∧
    (settings.PaperSize = "a5".toList →
      (buildGSArgs printerName pdfPath settings)[6]? = some "-sPAPERSIZE=a5".toList) ∧
    (settings.PaperSize ∉ knownSizes →
      (buildGSArgs printerName pdfPath settings)[6]? = some "-sPAPERSIZE=a4".toList) ∧
    (buildGSArgs "MP230".toList "C:\\docs\\test.pdf".toList
        { PaperSize := [], Color := "color".toList, DoubleSided := false,
          DuplexMode := "vertical".toList, Copies := 1 })[6]? = some "-sPAPERSIZE=a4".toList ∧
    (buildGSArgs "MP230".toList "C:\\docs\\test.pdf".toList
        { PaperSize := "A3".toList, Color := "color".toList, DoubleSided := false,
          DuplexMode := "vertical".toList, Copies := 1 })[6]? = some "-sPAPERSIZE=a4".toList := by
  rw [buildGSArgs_seventh]
  refine ⟨?_, ?_, ?_, ?_, ?_, by decide, by decide⟩
  · intro h; rw [h]; decide
  · intro h; rw [h]; decide
  · intro h; rw [h]; decide
  · intro h; rw [h]; decide
  · intro h
    unfold paperFlag
    rw [if_neg h]
    decide

/-- Witness for C14 at the sizes "letter" and "tabloid". -/
theorem C14_paper_size_witness :
    (buildGSArgs "MP230".toList "C:\\docs\\test.pdf".toList
        { PaperSize := "letter".toList, Color := "color".toList, DoubleSided := false,
          DuplexMode := "vertical".toList, Copies := 1 })[6]? =
      some "-sPAPERSIZE=letter".toList ∧
    (buildGSArgs "MP230".toList "C:\\docs\\test.pdf".toList
        { PaperSize := "tabloid".toList, Color := "color".toList, DoubleSided := false,
          DuplexMode := "vertical".toList, Copies := 1 })[6]? =
      some "-sPAPERSIZE=a4".toList :=
  ⟨(C14_paper_size "MP230".toList "C:\\docs\\test.pdf".toList
      { PaperSize := "letter".toList, Color := "color".toList, DoubleSided := false,
        DuplexMode := "vertical".toList, Copies := 1 }).2.1 rfl,
    (C14_paper_size "MP230".toList "C:\\docs\\test.pdf".toList
      { PaperSize := "tabloid".toList, Color := "color".toList, DoubleSided := false,
        DuplexMode := "vertical".toList, Copies := 1 }).2.2.2.2.1 (by decide)⟩

/-! ## Job monitor, runs: C17, C18 -/

/-- A tick that returns prints its terminal report last, and no other report of
it announces an outcome. -/
theorem monitorTick_ret_reports (N : Str) (T : Int) (st : MonitorState) (t : Tick)
    (evs : List Event) (o : Outcome) (h : monitorTick N T st t = (evs, Next.ret o)) :
    ∃ body e, evs = body ++ [e] ∧ e.outcome? = some o ∧ ∀ x ∈ body, x.outcome? = none := by
  unfold monitorTick at h
  cases hp : getPrinterStatus N t.cmd with
  | error err =>
    rw [hp] at h
    simp only [Prod.mk.injEq, Next.ret.injEq] at h
    obtain ⟨h1, h2⟩ := h
    exact ⟨[], Event.pollError err, by rw [← h1]; rfl, by rw [← h2]; rfl, by simp⟩
  | ok s =>
    rw [hp] at h
    by_cases hd : s.JobsInQueue = 0
    · simp only [hd, if_true, Prod.mk.injEq, Next.ret.injEq] at h
      obtain ⟨h1, h2⟩ := h
      exact ⟨[], Event.completed, by rw [← h1]; rfl, by rw [← h2]; rfl, by simp⟩
    · simp only [hd, if_false] at h
      cases he : s.HasError
      · rw [he] at h
        cases hto : timedOut T t.sinceTimeout
        · rw [hto] at h
          simp at h
        · rw [hto] at h
          simp only [Bool.false_eq_true, if_false, if_true, Prod.mk.injEq, Next.ret.injEq] at h
          obtain ⟨h1, h2⟩ := h
          refine ⟨_, Event.timeout T, h1.symm, by rw [← h2]; rfl, ?_⟩
          intro x hx
          cases hpap : s.HasPaper <;> cases hsh : st.paperWarningShown <;>
            by_cases hj : s.JobsInQueue = st.previousJobs <;>
            simp [hpap, hsh, hj] at hx <;>
            (try rcases hx with rfl | rfl) <;> rfl
      · rw [he] at h
        simp only [if_true, Prod.mk.injEq, Next.ret.injEq] at h
        obtain ⟨h1, h2⟩ := h
        refine ⟨_, Event.printerError s.ErrorMsg, h1.symm, by rw [← h2]; rfl, ?_⟩
        intro x hx
        cases hpap : s.HasPaper <;> cases hsh : st.paperWarningShown <;>
          simp [hpap, hsh] at hx <;> (try subst hx) <;> rfl

/-- A tick that goes round the loop again prints no report that announces an
outcome. -/
theorem monitorTick_loop_reports (N : Str) (T : Int) (st st' : MonitorState) (t : Tick)
    (evs : List Event) (h : monitorTick N T st t = (evs, Next.loop st')) :
    ∀ x ∈ evs, x.outcome? = none := by
  unfold monitorTick at h
  cases hp : getPrinterStatus N t.cmd with
  | error err => rw [hp] at h; simp at h
  | ok s =>
    rw [hp] at h
    by_cases hd : s.JobsInQueue = 0
    · simp [hd] at h
    · simp only [hd, if_false] at h
      cases he : s.HasError
      · rw [he] at h
        cases hto : timedOut T t.sinceTimeout
        · rw [hto] at h
          simp only [Bool.false_eq_true, if_false, Prod.mk.injEq] at h
          obtain ⟨h1, _⟩ := h
          intro x hx
          rw [← h1] at hx
          cases hpap : s.HasPaper <;> cases hsh : st.paperWarningShown <;>
            by_cases hj : s.JobsInQueue = st.previousJobs <;>
            simp [hpap, hsh, hj] at hx <;>
            (try rcases hx with rfl | rfl) <;> rfl
        · rw [hto] at h
          simp at h
      · rw [he] at h
        simp at h

/-- What a run that returned looks like: it reported on as many ticks as it
consumed, at least one; its result is that of the ticks consumed, whatever
follows them; no shorter run had returned; and its only report that announces
an outcome is the last one, announcing the outcome of the run. -/
theorem monitorLoop_ret_facts (N : Str) (T : Int) (ticks : List Tick) (st : MonitorState)
    (tr : List (List Event)) (o : Outcome) (h : monitorLoop N T st ticks = (tr, Next.ret o)) :
    0 < tr.length ∧ tr.length ≤ ticks.length ∧
    (∀ rest, monitorLoop N T st (ticks.take tr.length ++ rest) = (tr, Next.ret o)) ∧
    (∀ k, k < tr.length → ∃ st', (monitorLoop N T st (ticks.take k)).2 = Next.loop st') ∧
    (∃ body e, tr.flatten = body ++ [e] ∧ e.outcome? = some o ∧
      ∀ x ∈ body, x.outcome? = none) := by
  induction ticks generalizing st tr with
  | nil => simp [monitorLoop] at h
  | cons t ts ih =>
    rcases hstep : monitorTick N T st t with ⟨evs, nx⟩
    cases nx with
    | ret o' =>
      rw [monitorLoop_cons_ret N T st t ts evs o' hstep] at h
      simp only [Prod.mk.injEq, Next.ret.injEq] at h
      obtain ⟨h1, h2⟩ := h
      subst h1 h2
      refine ⟨by simp, by simp, ?_, ?_, ?_⟩
      · intro rest
        simp only [List.length_singleton, List.take_succ_cons, List.take_zero,
          List.singleton_append]
        exact monitorLoop_cons_ret N T st t rest evs o' hstep
      · intro k hk
        have hk0 : k = 0 := by simpa using hk
        subst hk0
        exact ⟨st, rfl⟩
      · obtain ⟨body, e, hb, he, hn⟩ := monitorTick_ret_reports N T st t evs o' hstep
        exact ⟨body, e, by simpa using hb, he, hn⟩
    | loop st1 =>
      rw [monitorLoop_cons_loop N T st st1 t ts evs hstep] at h
      simp only [Prod.mk.injEq] at h
      obtain ⟨h1, h2⟩ := h
      have hrec : monitorLoop N T st1 ts = ((monitorLoop N T st1 ts).1, Next.ret o) := by
        rw [← h2]
      obtain ⟨hpos, hle, happ, hshort, body, e, hb, he, hn⟩ := ih st1 _ hrec
      subst h1
      refine ⟨by simp, by simpa using hle, ?_, ?_, ?_⟩
      · intro rest
        simp only [List.length_cons, List.take_succ_cons, List.cons_append]
        rw [monitorLoop_cons_loop N T st st1 t _ evs hstep, happ rest]
      · intro k hk
        cases k with
        | zero => exact ⟨st, rfl⟩
        | succ j =>
          simp only [List.take_succ_cons]
          rw [monitorLoop_cons_loop N T st st1 t _ evs hstep]
          exact hshort j (by simpa using hk)
      · refine ⟨evs ++ body, e, ?_, he, ?_⟩
        · rw [List.flatten_cons, hb, List.append_assoc]
        · intro x hx
          rcases List.mem_append.mp hx with hx | hx
          · exact monitorTick_loop_reports N T st st1 t evs hstep x hx
          · exact hn x hx

/-- C17: when a run of the monitor returns, with Completed, TimedOut or Failed,
it has reported on the ticks up to and including the first one that ended it
and on no other; every sequence of ticks that agrees with this one on those
ticks gives the same reports and the same outcome, so nothing after the
terminal tick is consumed; and the terminal report is the last report of the
run and the only one that announces an outcome. -/
theorem C17_terminal_stops (printerName : Str) (T : Int) (ticks : List Tick)
    (tr : List (List Event)) (o : Outcome)
    (h : monitorPrintJob printerName T ticks = (tr, Next.ret o)) :
    0 < tr.length ∧ tr.length ≤ ticks.length ∧
    (∀ ticks', ticks'.take tr.length = ticks.take tr.length →
      monitorPrintJob printerName T ticks' = (tr, Next.ret o)) ∧
    (∀ k, k < tr.length →
      ∃ st', (monitorPrintJob printerName T (ticks.take k)).2 = Next.loop st') ∧
    (∃ body e, tr.flatten = body ++ [e] ∧ e.outcome? = some o ∧
      ∀ x ∈ body, x.outcome? = none) := by
  unfold monitorPrintJob at h ⊢
  obtain ⟨hpos, hle, happ, hshort, hlast⟩ :=
    monitorLoop_ret_facts printerName T ticks initialState tr o h
  refine ⟨hpos, hle, ?_, hshort, hlast⟩
  intro ticks' htake
  have := happ (ticks'.drop tr.length)
  rw [← htake, List.take_append_drop] at this
  exact this

/-- Witness for C17: a run over depths 2, 0 returns Completed at the second
tick, and a third tick that would fail its poll changes nothing. -/
theorem C17_terminal_stops_witness :
    monitorPrintJob "MP230".toList 0
        [tickAt "STATUS:0\nJOBS:2\n" 2, tickAt "STATUS:0\nJOBS:0\n" 4,
          { cmd := none, sinceProgress := 6, sinceTimeout := 6 }] =
      ([[Event.progress 2 "Ready".toList 2], [Event.completed]],
        Next.ret Outcome.Completed) :=
  (C17_terminal_stops "MP230".toList 0
    [tickAt "STATUS:0\nJOBS:2\n" 2, tickAt "STATUS:0\nJOBS:0\n" 4]
    [[Event.progress 2 "Ready".toList 2], [Event.completed]] Outcome.Completed
    (by rfl)).2.2.1 _ (by rfl)

/-- A tick that goes round the loop again polled a snapshot with a queue that
is not empty and no error, and leaves the snapshot's depth and the negation of
its has-paper value in the locals. -/
theorem monitorTick_loop_locals (N : Str) (T : Int) (st st' : MonitorState) (t : Tick)
    (evs : List Event) (h : monitorTick N T st t = (evs, Next.loop st')) :
    ∃ s, getPrinterStatus N t.cmd = .ok s ∧ s.JobsInQueue ≠ 0 ∧ s.HasError = false ∧
      timedOut T t.sinceTimeout = false ∧
      st' = { previousJobs := s.JobsInQueue, paperWarningShown := !s.HasPaper } ∧
      tickLocals N st t = st' := by
  cases hp : getPrinterStatus N t.cmd with
  | error err =>
    unfold monitorTick at h
    rw [hp] at h
    simp at h
  | ok s =>
    have hd : s.JobsInQueue ≠ 0 := by
      intro hd
      rw [monitorTick_empty_queue N T st t s hp hd] at h
      simp at h
    have he : s.HasError = false := by
      cases he : s.HasError
      · rfl
      · unfold monitorTick at h
        rw [hp] at h
        simp [hd, he] at h
    have hto : timedOut T t.sinceTimeout = false := by
      cases hto : timedOut T t.sinceTimeout
      · rfl
      · unfold monitorTick at h
        rw [hp] at h
        simp [hd, he, hto] at h
    rw [monitorTick_continuing N T st t s hp hd he hto] at h
    simp only [Prod.mk.injEq, Next.loop.injEq] at h
    refine ⟨s, rfl, hd, he, hto, h.2.symm, ?_⟩
    unfold tickLocals
    rw [hp]
    simp only [hd, he, if_false, Bool.false_eq_true]
    exact h.2

/-- Paper reports of one tick against the flag before and after it, whichever
way the tick is left: a warning sets the flag, a restored notice clears it,
and nothing else touches it. -/
theorem monitorTick_paper_balance (N : Str) (T : Int) (st : MonitorState) (t : Tick) :
    (monitorTick N T st t).1.count Event.paperOut +
        (if st.paperWarningShown then 1 else 0) =
      (monitorTick N T st t).1.count Event.paperRestored +
        (if (tickLocals N st t).paperWarningShown then 1 else 0) := by
  unfold monitorTick tickLocals
  cases hp : getPrinterStatus N t.cmd with
  | error err => simp [List.count_cons]
  | ok s =>
    by_cases hd : s.JobsInQueue = 0
    · simp [hd, List.count_cons]
    · by_cases hj : s.JobsInQueue = st.previousJobs
      · have hd' : ¬ st.previousJobs = 0 := hj ▸ hd
        cases he : s.HasError <;> cases hpap : s.HasPaper <;>
          cases hsh : st.paperWarningShown <;> cases hto : timedOut T t.sinceTimeout <;>
          simp [hd, hd', hj, he, hpap, hsh, hto, List.count_cons]
      · cases he : s.HasError <;> cases hpap : s.HasPaper <;>
          cases hsh : st.paperWarningShown <;> cases hto : timedOut T t.sinceTimeout <;>
          simp [hd, hj, he, hpap, hsh, hto, List.count_cons]

/-- Paper reports of a run against the flag at its start and where it stands. -/
theorem monitorLoop_paper_balance (N : Str) (T : Int) (ticks : List Tick) (st : MonitorState) :
    countReports Event.paperOut (monitorLoop N T st ticks).1 +
        (if st.paperWarningShown then 1 else 0) =
      countReports Event.paperRestored (monitorLoop N T st ticks).1 +
        (if (finalLocals N T st ticks).paperWarningShown then 1 else 0) := by
  induction ticks generalizing st with
  | nil => simp [monitorLoop, finalLocals, countReports]
  | cons t ts ih =>
    have hb := monitorTick_paper_balance N T st t
    rcases hstep : monitorTick N T st t with ⟨evs, nx⟩
    rw [hstep] at hb
    simp only at hb
    cases nx with
    | ret o =>
      rw [monitorLoop_cons_ret N T st t ts evs o hstep]
      simp only [finalLocals, hstep, countReports, List.map_cons, List.map_nil, List.sum_cons,
        List.sum_nil, Nat.add_zero]
      exact hb
    | loop st1 =>
      rw [monitorLoop_cons_loop N T st st1 t ts evs hstep]
      obtain ⟨s, _, _, _, _, _, hl⟩ := monitorTick_loop_locals N T st st1 t evs hstep
      rw [hl] at hb
      have := ih st1
      simp only [finalLocals, hstep, countReports, List.map_cons, List.sum_cons] at this ⊢
      omega

theorem finalLocals_of_loop (N : Str) (T : Int) (ticks : List Tick) (st st' : MonitorState)
    (h : (monitorLoop N T st ticks).2 = Next.loop st') : finalLocals N T st ticks = st' := by
  induction ticks generalizing st with
  | nil =>
    simp only [monitorLoop, Next.loop.injEq] at h
    simp only [finalLocals]
    exact h
  | cons t ts ih =>
    rcases hstep : monitorTick N T st t with ⟨evs, nx⟩
    cases nx with
    | ret o =>
      rw [monitorLoop_cons_ret N T st t ts evs o hstep] at h
      simp at h
    | loop st1 =>
      rw [monitorLoop_cons_loop N T st st1 t ts evs hstep] at h
      simp only [finalLocals, hstep]
      exact ih st1 h

/-- C18: a tick that does not end the run leaves the paper-warning flag equal
to the negation of its snapshot's has-paper value and the remembered depth
equal to its snapshot's queue depth; and over any run the paper-out warnings
reported exceed the restored notices reported by 1 when the flag is set where
the run stands, and by 0 when it is clear. -/
theorem C18_loop_invariant (printerName : Str) (T : Int) (ticks : List Tick) :
    (∀ st t evs st', monitorTick printerName T st t = (evs, Next.loop st') →
      Tick.hasPaper? printerName t = some (!st'.paperWarningShown) ∧
      Tick.depth? printerName t = some st'.previousJobs) ∧
    countReports Event.paperOut (monitorPrintJob printerName T ticks).1 =
      countReports Event.paperRestored (monitorPrintJob printerName T ticks).1 +
        (if (finalLocals printerName T initialState ticks).paperWarningShown then 1 else 0) ∧
    (∀ st, (monitorPrintJob printerName T ticks).2 = Next.loop st →
      finalLocals printerName T initialState ticks = st) := by
  refine ⟨?_, ?_, ?_⟩
  · intro st t evs st' h
    obtain ⟨s, hp, _, _, _, hst, _⟩ := monitorTick_loop_locals printerName T st st' t evs h
    unfold Tick.hasPaper? Tick.depth?
    rw [hp, hst]
    simp
  · have := monitorLoop_paper_balance printerName T ticks initialState
    unfold monitorPrintJob
    simpa [initialState] using this
  · intro st h
    exact finalLocals_of_loop printerName T ticks initialState st h

/-- Witness for C18 at a tick without paper and depth 2: the locals it leaves
are depth 2 and the flag set. -/
theorem C18_loop_invariant_witness :
    Tick.hasPaper? "MP230".toList (tickAt "STATUS:PaperOut\nJOBS:2\n" 2) = some (!true) ∧
    Tick.depth? "MP230".toList (tickAt "STATUS:PaperOut\nJOBS:2\n" 2) = some 2 :=
  (C18_loop_invariant "MP230".toList 0 []).1 initialState (tickAt "STATUS:PaperOut\nJOBS:2\n" 2)
    [Event.paperOut, Event.progress 2 "Paper Problem".toList 2]
    { previousJobs := 2, paperWarningShown := true } (by rfl)

/-! ## Status poller, snapshots: C11, C19, C20 -/

/-- A negative value is scanned only behind a minus sign. -/
theorem scanInt_neg (p : Str) (n : Int) (h : scanInt p = some n) (hn : n < 0) :
    MinusFirst p := by
  unfold scanInt at h
  split at h
  · exact absurd h (by simp)
  · exact absurd h (by simp)
  · rename_i c cs hsk
    obtain ⟨blanks, hp, hblanks⟩ := skipSpace_some p (c :: cs) hsk
    simp only at h
    by_cases hminus : c = '-'
    · exact ⟨blanks, cs, by rw [hp, hminus], hblanks⟩
    · exfalso
      rw [if_neg hminus] at h
      split_ifs at h with h1 h2 h3 h4
      · simp only [Option.some.injEq] at h; omega
      · simp only [Option.some.injEq] at h; omega

theorem sscanfJobs_neg (line : Str) (n : Int) (h : sscanfJobs line = some n) (hn : n < 0) :
    HasPrefix line jobsPrefix = true ∧ MinusFirst (line.drop jobsPrefix.length) := by
  unfold sscanfJobs at h
  split_ifs at h with hpre
  refine ⟨hpre, ?_⟩
  split at h
  · exact absurd h (by simp)
  · rename_i rest hsk
    obtain ⟨b1, hb1, hsp1⟩ := skipSpace_some _ rest hsk
    obtain ⟨b2, tail, hrest, hsp2⟩ := scanInt_neg rest n h hn
    refine ⟨b1 ++ b2, tail, by rw [hb1, hrest]; simp, ?_⟩
    intro c hc
    rcases List.mem_append.mp hc with hc | hc
    · exact hsp1 c hc
    · exact hsp2 c hc

theorem foldl_parseLine_jobs_nonneg (lines : List Str) (st : PrinterStatus)
    (h : ∀ l ∈ lines, ∀ n, sscanfJobs (TrimSpace l) = some n → 0 ≤ n)
    (hst : 0 ≤ st.JobsInQueue) : 0 ≤ (lines.foldl parseLine st).JobsInQueue := by
  induction lines generalizing st with
  | nil => exact hst
  | cons l ls ih =>
    rw [List.foldl_cons]
    apply ih _ (fun x hx => h x (List.mem_cons_of_mem _ hx))
    rw [parseLine_jobs]
    cases hsc : sscanfJobs (TrimSpace l) with
    | none => exact hst
    | some n => exact h l (List.mem_cons_self _ _) n hsc

theorem not_minusFirst_of_no_minus (p : Str) (h : ∀ c ∈ p, c ≠ '-') : ¬ MinusFirst p := by
  rintro ⟨blanks, rest, hp, _⟩
  exact h '-' (by rw [hp]; simp) rfl

/-- C11, as stated, fails: the output "STATUS:0", "JOBS:-3" gives a snapshot
whose queue depth is -3. -/
theorem C11_counterexample :
    getPrinterStatus "MP230".toList (some "STATUS:0\nJOBS:-3\n".toList) =
      .ok { Name := "MP230".toList, Status := "Ready".toList, JobsInQueue := -3,
            IsReady := true, HasPaper := true, HasError := false, ErrorMsg := [] } ∧
    ¬ ((0 : Int) ≤ -3) := by
  refine ⟨by rfl, by decide⟩

/-- C11 amended: for every output in which no `JOBS:` payload has a minus sign
as its first rune that is not a blank, the queue depth of the snapshot is a
non-negative integer; a `JOBS:` line whose payload is blanks, a minus sign,
decimal digits that write a number v with 0 < v ≤ 2^63 and then any text that
does not start with a digit scans as -v and gives the snapshot the negative
queue depth -v when no later `JOBS:` line scans: "JOBS:-3" gives -3, while
"JOBS:-0" scans as 0 and "JOBS:-x" scans nothing. -/
theorem C11_depth_nonneg_without_minus (printerName output : Str) :
    ((∀ l ∈ Split output '\n', isJobsLine l = true → ¬ MinusFirst (jobsPayload l)) →
      ∃ s, getPrinterStatus printerName (some output) = .ok s ∧ 0 ≤ s.JobsInQueue) ∧
    (∀ (pre post : List Str) (line blanks digits rest : Str),
      Split output '\n' = pre ++ line :: post →
      TrimSpace line = jobsPrefix ++ (blanks ++ (['-'] ++ (digits ++ rest))) →
      (∀ c ∈ blanks, isSpace c = true) →
      digits ≠ [] → (∀ c ∈ digits, isDecimalDigit c = true) →
      (∀ c, rest.head? = some c → isDecimalDigit c = false) →
      0 < decimalValue digits → decimalValue digits ≤ 2 ^ 63 →
      (∀ l ∈ post, sscanfJobs (TrimSpace l) = none) →
      ∃ s, getPrinterStatus printerName (some output) = .ok s ∧
        s.JobsInQueue = -(decimalValue digits : Int) ∧ s.JobsInQueue < 0) ∧
    sscanfJobs "JOBS:-3".toList = some (-3) ∧ sscanfJobs "JOBS:-0".toList = some 0 ∧
    sscanfJobs "JOBS:-x".toList = none := by
  refine ⟨?_, ?_, by decide, by decide, by decide⟩
  · intro h
    refine ⟨_, rfl, ?_⟩
    apply foldl_parseLine_jobs_nonneg
    · intro l hl n hsc
      by_contra hneg
      obtain ⟨hpre, hminus⟩ := sscanfJobs_neg _ n hsc (by omega)
      exact h l hl hpre hminus
    · exact le_refl _
  · intro pre post line blanks digits rest hsplit hline hb hne hd hr hpos hle hpost
    have hval : signedValue ['-'] digits = -(decimalValue digits : Int) := by
      unfold signedValue
      rw [if_pos rfl]
    have hle' : (decimalValue digits : Int) ≤ 2 ^ 63 := by exact_mod_cast hle
    have hpos' : (0 : Int) < (decimalValue digits : Int) := by exact_mod_cast hpos
    obtain ⟨s, hs, hdepth⟩ := getPrinterStatus_jobs_value printerName output pre post line
      blanks ['-'] digits rest hsplit hline hb (Or.inr (Or.inr rfl)) hne hd hr
      (by rw [hval]; omega) (by rw [hval]; omega) hpost
    rw [hval] at hdepth
    exact ⟨s, hs, hdepth, by rw [hdepth]; omega⟩

/-- Witness for the amended C11 at the outputs "STATUS:0", "JOBS:7" and
"STATUS:0", "JOBS:-3". -/
theorem C11_depth_nonneg_without_minus_witness :
    (∃ s, getPrinterStatus "MP230".toList (some "STATUS:0\nJOBS:7".toList) = .ok s ∧
      0 ≤ s.JobsInQueue) ∧
    (∃ s, getPrinterStatus "MP230".toList (some "STATUS:0\nJOBS:-3".toList) = .ok s ∧
      s.JobsInQueue = -(decimalValue "3".toList : Int) ∧ s.JobsInQueue < 0) ∧
    decimalValue "3".toList = 3 :=
  ⟨(C11_depth_nonneg_without_minus "MP230".toList "STATUS:0\nJOBS:7".toList).1 (by
      have hs : Split "STATUS:0\nJOBS:7".toList '\n' =
          ["STATUS:0".toList, "JOBS:7".toList] := by decide
      rw [hs]
      intro l hl hj
      simp only [List.mem_cons, List.mem_singleton, List.not_mem_nil, or_false] at hl
      rcases hl with rfl | rfl
      · exact absurd hj (by decide)
      · exact not_minusFirst_of_no_minus _ (by decide)),
    (C11_depth_nonneg_without_minus "MP230".toList "STATUS:0\nJOBS:-3".toList).2.1
      ["STATUS:0".toList] [] "JOBS:-3".toList [] "3".toList []
      (by decide) (by decide) (by decide) (by decide) (by decide) (by decide) (by decide)
      (by decide) (by decide),
    by decide⟩

/-- The two substring tests see the same thing before and after trimming. -/
theorem contains_paper_trim_eq (code : Str) :
    Contains (ToLower (TrimSpace code)) "paper".toList =
      Contains (ToLower code) "paper".toList := by
  rw [Bool.eq_iff_iff, contains_paper_trim, contains_toLower_iff _ _ plain_paper]

theorem contains_error_trim_eq (code : Str) :
    Contains (ToLower (TrimSpace code)) "error".toList =
      Contains (ToLower code) "error".toList := by
  rw [Bool.eq_iff_iff, contains_error_trim, contains_toLower_iff _ _ plain_error]

/-- A code that contains "paper" is classified Paper Problem. -/
theorem parseStatusCode_of_paper (code : Str)
    (hp : Contains (ToLower code) "paper".toList = true) :
    parseStatusCode code = "Paper Problem".toList := by
  have hp' : Contains (ToLower (TrimSpace code)) "paper".toList = true := by
    rw [contains_paper_trim_eq]; exact hp
  have hex : TrimSpace code ∉ exactCodes := by
    intro hmem
    have := (exactCodes_plain _ hmem).1
    rw [hp'] at this
    exact Bool.noConfusion this
  rw [parseStatusCode_default code hex, if_pos hp']

/-- A code that contains "error" and not "paper" is classified Error. -/
theorem parseStatusCode_of_error (code : Str)
    (hp : Contains (ToLower code) "paper".toList = false)
    (he : Contains (ToLower code) "error".toList = true) :
    parseStatusCode code = "Error".toList := by
  have hp' : ¬ Contains (ToLower (TrimSpace code)) "paper".toList = true := by
    rw [contains_paper_trim_eq, hp]; exact Bool.noConfusion
  have he' : Contains (ToLower (TrimSpace code)) "error".toList = true := by
    rw [contains_error_trim_eq]; exact he
  have hex : TrimSpace code ∉ exactCodes := by
    intro hmem
    have := (exactCodes_plain _ hmem).2
    rw [he'] at this
    exact Bool.noConfusion this
  rw [parseStatusCode_default code hex, if_neg hp', if_pos he']

/-- What the classifier returns on the exact codes. -/
theorem parseStatusCode_exact (code : Str) (h : TrimSpace code ∈ exactCodes) :
    (TrimSpace code ∈ paperCodes ∧ parseStatusCode code ∈ paperStatuses) ∨
      (TrimSpace code ∉ paperCodes ∧ parseStatusCode code ∉ paperStatuses) := by
  unfold parseStatusCode
  simp only [exactCodes, List.mem_cons, List.mem_singleton, List.not_mem_nil, or_false] at h
  rcases h with h | h | h | h | h | h | h | h | h | h <;> rw [h] <;> decide

/-- Away from the raw codes "4", "5" and "7" the paper facet agrees with the
semantic status: a snapshot whose status names a paper condition has its
has-paper value false. -/
theorem paper_status_facet (payload : Str) (hcode : TrimSpace payload ∉ paperCodes)
    (hst : parseStatusCode payload ∈ paperStatuses) :
    (!Contains (ToLower payload) "paper".toList) = false := by
  by_cases hex : TrimSpace payload ∈ exactCodes
  · rcases parseStatusCode_exact payload hex with ⟨h1, _⟩ | ⟨_, h2⟩
    · exact absurd h1 hcode
    · exact absurd hst h2
  · rw [parseStatusCode_default payload hex] at hst
    split_ifs at hst with hp he
    · rw [contains_paper_trim_eq] at hp
      rw [hp]; rfl
    · exact absurd hst (by decide)
    · exfalso
      apply hp
      unfold paperStatuses at hst
      simp only [List.mem_cons, List.mem_singleton, List.not_mem_nil, or_false] at hst
      rcases hst with h | h | h <;> rw [h] <;> decide

/-- A tick that polls a snapshot without paper and with a queue that is not
empty, the flag being clear, reports the paper-out warning, however the tick
goes on. -/
theorem monitorTick_warns (N : Str) (T : Int) (st : MonitorState) (t : Tick) (s : PrinterStatus)
    (hpoll : getPrinterStatus N t.cmd = .ok s) (hd : s.JobsInQueue ≠ 0)
    (hpaper : s.HasPaper = false) (hflag : st.paperWarningShown = false) :
    Event.paperOut ∈ (monitorTick N T st t).1 := by
  unfold monitorTick
  rw [hpoll]
  cases he : s.HasError <;> cases hto : timedOut T t.sinceTimeout <;>
    simp [hd, hpaper, hflag, he, hto]

/-- C19, as stated, fails: for the payloads "4", "5" and "7" the snapshot
stores Paper Jam, Paper Out and Paper Problem with has-paper true, and the tick
of the monitor that polls "STATUS:5" reports progress and no paper-out
warning. -/
theorem C19_counterexample :
    getPrinterStatus "MP230".toList (some "STATUS:4\nJOBS:1\n".toList) =
      .ok { Name := "MP230".toList, Status := "Paper Jam".toList, JobsInQueue := 1,
            IsReady := false, HasPaper := true, HasError := false, ErrorMsg := [] } ∧
    getPrinterStatus "MP230".toList (some "STATUS:5\nJOBS:1\n".toList) =
      .ok { Name := "MP230".toList, Status := "Paper Out".toList, JobsInQueue := 1,
            IsReady := false, HasPaper := true, HasError := false, ErrorMsg := [] } ∧
    getPrinterStatus "MP230".toList (some "STATUS:7\nJOBS:1\n".toList) =
      .ok { Name := "MP230".toList, Status := "Paper Problem".toList, JobsInQueue := 1,
            IsReady := false, HasPaper := true, HasError := false, ErrorMsg := [] } ∧
    monitorTick "MP230".toList 0 initialState (tickAt "STATUS:5\nJOBS:1\n" 2000000000) =
      ([Event.progress 1 "Paper Out".toList 2000000000],
        Next.loop { previousJobs := 1, paperWarningShown := false }) := by
  refine ⟨by rfl, by rfl, by rfl, by rfl⟩

/-- C19 amended: for every `STATUS:` payload other than the raw codes "4", "5"
and "7", if the semantic status stored is Paper Jam, Paper Out or Paper
Problem then the snapshot's has-paper value is false, and a tick of the monitor
that polls it with a queue that is not empty and the flag clear reports the
paper-out warning. -/
theorem C19_paper_status_clears_has_paper (printerName output : Str) (pre post : List Str)
    (line : Str) (hsplit : Split output '\n' = pre ++ line :: post)
    (hline : isStatusLine line = true) (hpost : ∀ l ∈ post, isStatusLine l = false)
    (hcode : TrimSpace (statusPayload line) ∉ paperCodes) :
    ∃ s, getPrinterStatus printerName (some output) = .ok s ∧
      (s.Status ∈ paperStatuses →
        s.HasPaper = false ∧
        ∀ (T : Int) (st : MonitorState) (since1 since2 : Int),
          s.JobsInQueue ≠ 0 → st.paperWarningShown = false →
          Event.paperOut ∈ (monitorTick printerName T st
            { cmd := some output, sinceProgress := since1, sinceTimeout := since2 }).1) := by
  refine ⟨_, rfl, ?_⟩
  have h := foldl_parseLine_last_status pre post line (emptyStatus printerName) hline hpost
  rw [← hsplit] at h
  simp only [statusFields, Prod.mk.injEq] at h
  obtain ⟨hs, _, hp, _⟩ := h
  intro hst
  rw [hs] at hst
  have hpaper := paper_status_facet (statusPayload line) hcode hst
  rw [← hp] at hpaper
  refine ⟨hpaper, ?_⟩
  intro T st since1 since2 hd hflag
  exact monitorTick_warns printerName T st _ _ rfl hd hpaper hflag

/-- Witness for the amended C19 at the output "STATUS:PaperJam", "JOBS:1". -/
theorem C19_paper_status_clears_has_paper_witness :
    ∃ s, getPrinterStatus "MP230".toList (some "STATUS:PaperJam\nJOBS:1".toList) = .ok s ∧
      s.HasPaper = false := by
  obtain ⟨s, hs, h⟩ := C19_paper_status_clears_has_paper "MP230".toList
    "STATUS:PaperJam\nJOBS:1".toList [] ["JOBS:1".toList] "STATUS:PaperJam".toList
    (by decide) (by decide) (by decide) (by decide)
  refine ⟨s, hs, (h ?_).1⟩
  have hval : getPrinterStatus "MP230".toList (some "STATUS:PaperJam\nJOBS:1".toList) =
      .ok { Name := "MP230".toList, Status := "Paper Problem".toList, JobsInQueue := 1,
            IsReady := false, HasPaper := false, HasError := false, ErrorMsg := [] } := by
    rfl
  rw [hval] at hs
  injection hs with hs
  rw [← hs]
  decide

/-- C20: in the snapshot built from an output with a `STATUS:` line, has-paper
false makes the semantic status Paper Problem, and has-error true makes it
Error or Paper Problem; so a snapshot flagged with a paper or error condition
is not Ready, Paused or Offline, and it is not Unknown either, its payload
containing one of the two words the Unknown rule must not find. -/
theorem C20_facets_constrain_status (printerName output : Str) (pre post : List Str)
    (line : Str) (hsplit : Split output '\n' = pre ++ line :: post)
    (hline : isStatusLine line = true) (hpost : ∀ l ∈ post, isStatusLine l = false) :
    ∃ s, getPrinterStatus printerName (some output) = .ok s ∧
      (s.HasPaper = false → s.Status = "Paper Problem".toList) ∧
      (s.HasError = true → s.Status = "Error".toList ∨ s.Status = "Paper Problem".toList) ∧
      (s.HasPaper = false ∨ s.HasError = true →
        s.Status ≠ "Ready".toList ∧ s.Status ≠ "Paused".toList ∧
        s.Status ≠ "Offline".toList ∧
        (ContainsIgnoringCase (statusPayload line) "paper".toList ∨
          ContainsIgnoringCase (statusPayload line) "error".toList)) := by
  refine ⟨_, rfl, ?_⟩
  have h := foldl_parseLine_last_status pre post line (emptyStatus printerName) hline hpost
  rw [← hsplit] at h
  simp only [statusFields, Prod.mk.injEq] at h
  obtain ⟨hs, _, hp, he⟩ := h
  rw [hs, hp, he]
  have hpaper : (!Contains (ToLower (statusPayload line)) "paper".toList) = false →
      parseStatusCode (statusPayload line) = "Paper Problem".toList := by
    intro hh
    apply parseStatusCode_of_paper
    simpa using hh
  have herror : Contains (ToLower (statusPayload line)) "error".toList = true →
      parseStatusCode (statusPayload line) = "Error".toList ∨
        parseStatusCode (statusPayload line) = "Paper Problem".toList := by
    intro hh
    cases hc : Contains (ToLower (statusPayload line)) "paper".toList
    · exact Or.inl (parseStatusCode_of_error _ hc hh)
    · exact Or.inr (parseStatusCode_of_paper _ hc)
  refine ⟨hpaper, herror, ?_⟩
  intro hflag
  have hst : parseStatusCode (statusPayload line) = "Error".toList ∨
      parseStatusCode (statusPayload line) = "Paper Problem".toList := by
    rcases hflag with hh | hh
    · exact Or.inr (hpaper hh)
    · exact herror hh
  have hword : ContainsIgnoringCase (statusPayload line) "paper".toList ∨
      ContainsIgnoringCase (statusPayload line) "error".toList := by
    rcases hflag with hh | hh
    · left
      rw [← contains_toLower_iff _ _ plain_paper]
      simpa using hh
    · right
      rw [← contains_toLower_iff _ _ plain_error]
      exact hh
  rcases hst with hst | hst <;> rw [hst] <;> exact ⟨by decide, by decide, by decide, hword⟩

/-- Witness for C20 at the output "STATUS:Normal-paper-error", "JOBS:1". -/
theorem C20_facets_constrain_status_witness :
    ∃ s, getPrinterStatus "MP230".toList (some "STATUS:Normal-paper-error\nJOBS:1".toList) = .ok s ∧
      (s.HasPaper = false → s.Status = "Paper Problem".toList) ∧
      (s.HasError = true → s.Status = "Error".toList ∨ s.Status = "Paper Problem".toList) := by
  obtain ⟨s, hs, h1, h2, _⟩ := C20_facets_constrain_status "MP230".toList
    "STATUS:Normal-paper-error\nJOBS:1".toList [] ["JOBS:1".toList]
    "STATUS:Normal-paper-error".toList (by decide) (by decide) (by decide)
  exact ⟨s, hs, h1, h2⟩

/-! ## Print orchestrator: C15, C16 -/

theorem handlePrint_file_missing (h : Host) (req : PrintRequest)
    (hdoc : h.stat (withDefaults req).FileName = StatResult.notExist) :
    handlePrint h (some req) =
      (404, failure ("File not found: ".toList ++ (withDefaults req).FileName)) := by
  unfold handlePrint
  simp only [hdoc, if_true]

theorem handlePrint_printer_missing (h : Host) (req : PrintRequest) (e : Str)
    (hdoc : h.stat (withDefaults req).FileName ≠ StatResult.notExist)
    (hpoll : getPrinterStatus (withDefaults req).Printer
      (h.statusCmd (withDefaults req).Printer) = .error e) :
    handlePrint h (some req) =
      (500, failure ("Printer not found: ".toList ++ (withDefaults req).Printer)) := by
  unfold handlePrint
  simp only [hdoc, if_false, hpoll]

theorem handlePrint_not_ready (h : Host) (req : PrintRequest) (s : PrinterStatus)
    (hdoc : h.stat (withDefaults req).FileName ≠ StatResult.notExist)
    (hpoll : getPrinterStatus (withDefaults req).Printer
      (h.statusCmd (withDefaults req).Printer) = .ok s)
    (hready : s.IsReady = false) :
    handlePrint h (some req) = (503, failure ("Printer not ready: ".toList ++ s.Status)) := by
  unfold handlePrint
  simp only [hdoc, if_false, hpoll, hready, Bool.not_false, if_true]

theorem handlePrint_no_renderer (h : Host) (req : PrintRequest) (s : PrinterStatus)
    (hdoc : h.stat (withDefaults req).FileName ≠ StatResult.notExist)
    (hpoll : getPrinterStatus (withDefaults req).Printer
      (h.statusCmd (withDefaults req).Printer) = .ok s)
    (hready : s.IsReady = true) (hgs : findGhostscript h = []) :
    handlePrint h (some req) = (500, failure "Ghostscript not found".toList) := by
  unfold handlePrint
  simp only [hdoc, if_false, hpoll, hready, Bool.not_true, Bool.false_eq_true, hgs, if_true]

/-- With the four preconditions met, the response is decided by the run of the
renderer. -/
theorem handlePrint_rendered (h : Host) (req : PrintRequest) (s : PrinterStatus)
    (hdoc : h.stat (withDefaults req).FileName ≠ StatResult.notExist)
    (hpoll : getPrinterStatus (withDefaults req).Printer
      (h.statusCmd (withDefaults req).Printer) = .ok s)
    (hready : s.IsReady = true) (hgs : findGhostscript h ≠ []) :
    handlePrint h (some req) =
      match h.render (findGhostscript h)
          (buildGSArgs (withDefaults req).Printer (h.abs (withDefaults req).FileName)
            (withDefaults req).Settings) with
      | (output, some err) =>
        (500, failure ("Print failed: ".toList ++ err ++ " - ".toList ++ output))
      | (_, none) =>
        (200, { Success := true, Message := "Print job sent successfully".toList,
                JobID := "job_".toList ++ formatInt h.nowUnix, Error := [] }) := by
  unfold handlePrint
  simp only [hdoc, if_false, hpoll, hready, Bool.not_true, Bool.false_eq_true, hgs]

theorem findGhostscript_render (h : Host) (render' : Str → List Str → Str × Option Str) :
    findGhostscript { h with render := render' } = findGhostscript h := by
  unfold findGhostscript
  generalize gsPaths = paths
  induction paths with
  | nil => rfl
  | cons path rest ih => simp only [findIn, ih]

/-- Unless all four preconditions hold, the response of the service does not
depend on what running the renderer would give: the renderer is not run. -/
theorem handlePrint_render_free (h : Host) (req : PrintRequest)
    (hunmet : h.stat (withDefaults req).FileName = StatResult.notExist ∨
      (∀ s, getPrinterStatus (withDefaults req).Printer
        (h.statusCmd (withDefaults req).Printer) = .ok s → s.IsReady = false) ∨
      findGhostscript h = [])
    (render' : Str → List Str → Str × Option Str) :
    handlePrint { h with render := render' } (some req) = handlePrint h (some req) := by
  by_cases hdoc : h.stat (withDefaults req).FileName = StatResult.notExist
  · rw [handlePrint_file_missing h req hdoc,
      handlePrint_file_missing { h with render := render' } req hdoc]
  · cases hpoll : getPrinterStatus (withDefaults req).Printer
        (h.statusCmd (withDefaults req).Printer) with
    | error e =>
      rw [handlePrint_printer_missing h req e hdoc hpoll,
        handlePrint_printer_missing { h with render := render' } req e hdoc hpoll]
    | ok s =>
      cases hready : s.IsReady with
      | false =>
        rw [handlePrint_not_ready h req s hdoc hpoll hready,
          handlePrint_not_ready { h with render := render' } req s hdoc hpoll hready]
      | true =>
        by_cases hgs : findGhostscript h = []
        · rw [handlePrint_no_renderer h req s hdoc hpoll hready hgs,
            handlePrint_no_renderer { h with render := render' } req s hdoc hpoll hready
              (by rw [findGhostscript_render]; exact hgs)]
        · exfalso
          rcases hunmet with h1 | h1 | h1
          · exact hdoc h1
          · have := h1 s hpoll
            rw [hready] at this
            exact Bool.noConfusion this
          · exact hgs h1

theorem main_printer_missing (h : Host) (ticks : List Tick) (e : Str)
    (hpoll : getPrinterStatus "MP230".toList (h.statusCmd "MP230".toList) = .error e) :
    main h ticks = CliResult.printerLookupFailed e := by
  unfold main
  simp only [hpoll]

theorem main_not_ready (h : Host) (ticks : List Tick) (s : PrinterStatus)
    (hpoll : getPrinterStatus "MP230".toList (h.statusCmd "MP230".toList) = .ok s)
    (hready : s.IsReady = false) :
    main h ticks = CliResult.printerNotReady := by
  unfold main
  simp only [hpoll, hready, Bool.not_false, if_true]

theorem main_printer_error (h : Host) (ticks : List Tick) (s : PrinterStatus)
    (hpoll : getPrinterStatus "MP230".toList (h.statusCmd "MP230".toList) = .ok s)
    (hready : s.IsReady = true) (herr : s.HasError = true) :
    main h ticks = CliResult.printerError s.ErrorMsg := by
  unfold main
  simp only [hpoll, hready, herr, Bool.not_true, Bool.false_eq_true, if_false, if_true]

theorem main_file_missing (h : Host) (ticks : List Tick) (s : PrinterStatus)
    (hpoll : getPrinterStatus "MP230".toList (h.statusCmd "MP230".toList) = .ok s)
    (hready : s.IsReady = true) (herr : s.HasError = false)
    (hdoc : h.stat "test.pdf".toList = StatResult.notExist) :
    main h ticks = CliResult.fileNotFound := by
  unfold main
  simp only [hpoll, hready, herr, hdoc, Bool.not_true, Bool.false_eq_true, if_false, if_true]

theorem main_no_renderer (h : Host) (ticks : List Tick) (s : PrinterStatus)
    (hpoll : getPrinterStatus "MP230".toList (h.statusCmd "MP230".toList) = .ok s)
    (hready : s.IsReady = true) (herr : s.HasError = false)
    (hdoc : h.stat "test.pdf".toList ≠ StatResult.notExist) (hgs : findGhostscript h = []) :
    main h ticks = CliResult.rendererMissing := by
  unfold main
  simp only [hpoll, hready, herr, hdoc, hgs, Bool.not_true, Bool.false_eq_true, if_false,
    if_true]

/-- Unless the printer is found, ready and free of error, the document exists
and the renderer is found, the result of the command-line tool does not depend
on what running the renderer would give: the renderer is not run. -/
theorem main_render_free (h : Host) (ticks : List Tick)
    (hunmet : (∀ s, getPrinterStatus "MP230".toList (h.statusCmd "MP230".toList) = .ok s →
        s.IsReady = false ∨ s.HasError = true) ∨
      h.stat "test.pdf".toList = StatResult.notExist ∨ findGhostscript h = [])
    (render' : Str → List Str → Str × Option Str) :
    main { h with render := render' } ticks = main h ticks := by
  cases hpoll : getPrinterStatus "MP230".toList (h.statusCmd "MP230".toList) with
  | error e =>
    rw [main_printer_missing h ticks e hpoll,
      main_printer_missing { h with render := render' } ticks e hpoll]
  | ok s =>
    cases hready : s.IsReady with
    | false =>
      rw [main_not_ready h ticks s hpoll hready,
        main_not_ready { h with render := render' } ticks s hpoll hready]
    | true =>
      cases herr : s.HasError with
      | true =>
        rw [main_printer_error h ticks s hpoll hready herr,
          main_printer_error { h with render := render' } ticks s hpoll hready herr]
      | false =>
        by_cases hdoc : h.stat "test.pdf".toList = StatResult.notExist
        · rw [main_file_missing h ticks s hpoll hready herr hdoc,
            main_file_missing { h with render := render' } ticks s hpoll hready herr hdoc]
        · by_cases hgs : findGhostscript h = []
          · rw [main_no_renderer h ticks s hpoll hready herr hdoc hgs,
              main_no_renderer { h with render := render' } ticks s hpoll hready herr hdoc
                (by rw [findGhostscript_render]; exact hgs)]
          · exfalso
            rcases hunmet with h1 | h1 | h1
            · rcases h1 s hpoll with h2 | h2
              · rw [hready] at h2; exact Bool.noConfusion h2
              · rw [herr] at h2; exact Bool.noConfusion h2
            · exact hdoc h1
            · exact hgs h1

/-- C15, as stated, fails for the command-line tool: on a host where the
document is missing and the printer is not found, `main` reports the printer
lookup failure, not the missing file; the service on the same host reports the
missing file. -/
theorem C15_counterexample :
    (sampleHost StatResult.notExist none true none).stat "test.pdf".toList =
      StatResult.notExist ∧
    (sampleHost StatResult.notExist none true none).statusCmd "MP230".toList = none ∧
    main (sampleHost StatResult.notExist none true none) [] =
      CliResult.printerLookupFailed "printer tidak ditemukan".toList ∧
    main (sampleHost StatResult.notExist none true none) [] ≠ CliResult.fileNotFound ∧
    handlePrint (sampleHost StatResult.notExist none true none) (some sampleRequest) =
      (404, failure "File not found: test.pdf".toList) := by
  refine ⟨by rfl, by rfl, by rfl, by decide, by rfl⟩

/-- C15 amended: the service `handlePrint` reports the failure of the first
unmet precondition in the order document, printer lookup, printer ready,
renderer; the command-line `main` does so in the order printer lookup, printer
ready, printer free of error, document, renderer; and in both the renderer is
run only when all these hold, the result not depending on it otherwise. -/
theorem C15_precondition_order (h : Host) (req : PrintRequest) (ticks : List Tick) :
    (h.stat (withDefaults req).FileName = StatResult.notExist →
      handlePrint h (some req) =
        (404, failure ("File not found: ".toList ++ (withDefaults req).FileName))) ∧
    (h.stat (withDefaults req).FileName ≠ StatResult.notExist →
      ∀ e, getPrinterStatus (withDefaults req).Printer
          (h.statusCmd (withDefaults req).Printer) = .error e →
        (handlePrint h (some req)).2 =
          failure ("Printer not found: ".toList ++ (withDefaults req).Printer)) ∧
    (h.stat (withDefaults req).FileName ≠ StatResult.notExist →
      ∀ s, getPrinterStatus (withDefaults req).Printer
          (h.statusCmd (withDefaults req).Printer) = .ok s →
        (s.IsReady = false →
          handlePrint h (some req) =
            (503, failure ("Printer not ready: ".toList ++ s.Status))) ∧
        (s.IsReady = true → findGhostscript h = [] →
          handlePrint h (some req) = (500, failure "Ghostscript not found".toList))) ∧
    ((h.stat (withDefaults req).FileName = StatResult.notExist ∨
        (∀ s, getPrinterStatus (withDefaults req).Printer
          (h.statusCmd (withDefaults req).Printer) = .ok s → s.IsReady = false) ∨
        findGhostscript h = []) →
      ∀ render', handlePrint { h with render := render' } (some req) =
        handlePrint h (some req)) ∧
    (∀ e, getPrinterStatus "MP230".toList (h.statusCmd "MP230".toList) = .error e →
      main h ticks = CliResult.printerLookupFailed e) ∧
    (∀ s, getPrinterStatus "MP230".toList (h.statusCmd "MP230".toList) = .ok s →
      (s.IsReady = false → main h ticks = CliResult.printerNotReady) ∧
      (s.IsReady = true → s.HasError = true →
        main h ticks = CliResult.printerError s.ErrorMsg) ∧
      (s.IsReady = true → s.HasError = false →
        h.stat "test.pdf".toList = StatResult.notExist →
        main h ticks = CliResult.fileNotFound) ∧
      (s.IsReady = true → s.HasError = false →
        h.stat "test.pdf".toList ≠ StatResult.notExist → findGhostscript h = [] →
        main h ticks = CliResult.rendererMissing)) ∧
    (((∀ s, getPrinterStatus "MP230".toList (h.statusCmd "MP230".toList) = .ok s →
          s.IsReady = false ∨ s.HasError = true) ∨
        h.stat "test.pdf".toList = StatResult.notExist ∨ findGhostscript h = []) →
      ∀ render', main { h with render := render' } ticks = main h ticks) := by
  refine ⟨handlePrint_file_missing h req, ?_, ?_, handlePrint_render_free h req, ?_, ?_,
    main_render_free h ticks⟩
  · intro hdoc e hpoll
    rw [handlePrint_printer_missing h req e hdoc hpoll]
  · intro hdoc s hpoll
    exact ⟨handlePrint_not_ready h req s hdoc hpoll,
      handlePrint_no_renderer h req s hdoc hpoll⟩
  · intro e hpoll
    exact main_printer_missing h ticks e hpoll
  · intro s hpoll
    exact ⟨main_not_ready h ticks s hpoll, main_printer_error h ticks s hpoll,
      main_file_missing h ticks s hpoll, main_no_renderer h ticks s hpoll⟩

/-- Witness for the amended C15 on a host without document and without
printer: the service reports the missing file, the command-line tool the
printer. -/
theorem C15_precondition_order_witness :
    handlePrint (sampleHost StatResult.notExist none true none) (some sampleRequest) =
      (404, failure ("File not found: ".toList ++ (withDefaults sampleRequest).FileName)) ∧
    main (sampleHost StatResult.notExist none true none) [] =
      CliResult.printerLookupFailed "printer tidak ditemukan".toList :=
  ⟨(C15_precondition_order (sampleHost StatResult.notExist none true none) sampleRequest
      []).1 (by rfl),
    (C15_precondition_order (sampleHost StatResult.notExist none true none) sampleRequest
      []).2.2.2.2.1 _ (by rfl)⟩

/-- The responses of the service that follow the specification: 400 for an
unparsable body, and with success false 404 for a missing file and 503 for a
printer that is not ready; once the four preconditions hold, 500 with an error
text that is not empty when the renderer fails, else 200 with success true and
a job id that is not empty. -/
theorem handlePrint_codes (h : Host) (req : PrintRequest) :
    handlePrint h none = (400, failure "Invalid request body".toList) ∧
    (h.stat (withDefaults req).FileName = StatResult.notExist →
      (handlePrint h (some req)).1 = 404 ∧ (handlePrint h (some req)).2.Success = false) ∧
    (h.stat (withDefaults req).FileName ≠ StatResult.notExist →
      ∀ s, getPrinterStatus (withDefaults req).Printer
          (h.statusCmd (withDefaults req).Printer) = .ok s →
        (s.IsReady = false →
          (handlePrint h (some req)).1 = 503 ∧ (handlePrint h (some req)).2.Success = false) ∧
        (s.IsReady = true → findGhostscript h = [] →
          (handlePrint h (some req)).1 = 500 ∧ (handlePrint h (some req)).2.Error ≠ []) ∧
        (s.IsReady = true → findGhostscript h ≠ [] →
          ((handlePrint h (some req)).1 = 500 ∧ (handlePrint h (some req)).2.Success = false ∧
              (handlePrint h (some req)).2.Error ≠ []) ∨
            ((handlePrint h (some req)).1 = 200 ∧ (handlePrint h (some req)).2.Success = true ∧
              (handlePrint h (some req)).2.JobID ≠ []))) := by
  refine ⟨rfl, ?_, ?_⟩
  · intro hdoc
    rw [handlePrint_file_missing h req hdoc]
    exact ⟨rfl, rfl⟩
  · intro hdoc s hpoll
    refine ⟨?_, ?_, ?_⟩
    · intro hready
      rw [handlePrint_not_ready h req s hdoc hpoll hready]
      exact ⟨rfl, rfl⟩
    · intro hready hgs
      rw [handlePrint_no_renderer h req s hdoc hpoll hready hgs]
      exact ⟨rfl, by decide⟩
    · intro hready hgs
      rw [handlePrint_rendered h req s hdoc hpoll hready hgs]
      rcases h.render (findGhostscript h)
          (buildGSArgs (withDefaults req).Printer (h.abs (withDefaults req).FileName)
            (withDefaults req).Settings) with ⟨output, err⟩
      cases err with
      | some e => exact Or.inl ⟨rfl, rfl, by simp [failure]⟩
      | none => exact Or.inr ⟨rfl, rfl, by simp⟩

/-- C16, where the code leaves the claim: with the file present and the printer
not found, `handlePrint` answers 500, not 404, with success false and the text
"Printer not found: MP230"; the sibling handler `handlePrinterStatus` answers
404 to the same failed lookup. -/
theorem C16_printer_not_found_is_500 :
    (sampleHost StatResult.found none true none).stat "test.pdf".toList = StatResult.found ∧
    getPrinterStatus "MP230".toList
        ((sampleHost StatResult.found none true none).statusCmd "MP230".toList) =
      .error "printer tidak ditemukan".toList ∧
    handlePrint (sampleHost StatResult.found none true none) (some sampleRequest) =
      (500, failure "Printer not found: MP230".toList) ∧
    handlePrinterStatus (sampleHost StatResult.found none true none) "MP230".toList =
      (404, .error "printer tidak ditemukan".toList) := by
  refine ⟨by rfl, by rfl, by rfl, by rfl⟩

end PrinterPdf
